import Mathlib

/-!
Verification of the spatial-query resolution and execution layer of the
tile38 server fork (file `internal/server/search.go`).

Embedding conventions:
* Go `float64` values are modelled as exact rationals (`ℚ`); the claims under
  study are about the algorithmic structure of the code, not float rounding.
* Token streams (`[]string`) are `List String`; `tokenval` consumes the head.
* External collaborators (the geohash / quadkey / slippy-tile coordinate math,
  the geojson parser, the clip and buffer primitives, the collection store and
  the scan-writer construction) are out of scope per the spec and live behind
  the parameter structure `Ext`; geometry values produced by them are tracked
  symbolically by the `GeomObject` variant.
* Functions of this repository that `search.go` calls but that are not part of
  the given source (`tokenval`, `parseSearchScanBaseTokens`, the `goingLive`
  marker, `glob.IsGlob`) are modelled from the spec, one definition each, with
  a doc comment saying so.
* Go's named-return / early-return error discipline is kept: `cmdSearchArgs`
  returns the pair `(liveFenceSwitches, Option Err)` exactly as the Go function
  returns `(lfs, err)`, including the paths where an already-set `err` is later
  overwritten.
-/

namespace Tile38

/-! ## Numeric token parsing (Go strconv, decimal subset) -/

/-- Value of a digit list, most significant first. -/
def natOfDigits (cs : List Char) : ℕ :=
  cs.foldl (fun a c => a * 10 + (c.toNat - 48)) 0

/-- Modelled from the Go standard library `strconv.Atoi` digit part:
all characters must be decimal digits and at least one must be present. -/
def parseIntDigits (cs : List Char) : Option ℕ :=
  if cs.isEmpty then none
  else if cs.all Char.isDigit then some (natOfDigits cs) else none

/-- Modelled from the Go standard library `strconv.Atoi` (optional sign,
decimal digits). -/
def parseInt? (s : String) : Option ℤ :=
  match s.toList with
  | '-' :: rest => (parseIntDigits rest).map fun n => -(n : ℤ)
  | '+' :: rest => (parseIntDigits rest).map fun n => (n : ℤ)
  | cs => (parseIntDigits cs).map fun n => (n : ℤ)

/-- Unsigned decimal literal `digits[.digits]`, as an exact rational. -/
def parseUDecimal (cs : List Char) : Option ℚ :=
  let ip := cs.takeWhile Char.isDigit
  let rest := cs.dropWhile Char.isDigit
  if ip.isEmpty then none
  else
    match rest with
    | [] => some (natOfDigits ip : ℚ)
    | '.' :: frac =>
      if !frac.isEmpty && frac.all Char.isDigit then
        some ((natOfDigits ip : ℚ) + (natOfDigits frac : ℚ) / ((10 : ℚ) ^ frac.length))
      else none
    | _ => none

/-- Modelled from the Go standard library `strconv.ParseFloat`, restricted to
plain signed decimal notation (the notation the grammar's coordinates use). -/
def parseFloat? (s : String) : Option ℚ :=
  match s.toList with
  | '-' :: rest => (parseUDecimal rest).map Neg.neg
  | '+' :: rest => parseUDecimal rest
  | cs => parseUDecimal cs

/-! ## Token cursor -/

/-- Modelled from the spec: the package-level `tokenval` cursor
(`peek`/`next` on a `[]string`); returns the head token and the rest,
with `ok = false` on an empty stream. -/
def tokenval (vs : List String) : List String × String × Bool :=
  match vs with
  | [] => ([], "", false)
  | v :: rest => (rest, v, true)

/-- Modelled from the Go standard library `strings.ToLower` (character-wise
lowering, which is all the grammar's ASCII keywords need); Lean's own
`String.toLower` is avoided only because its position-based recursion does
not evaluate inside the kernel. -/
def strToLower (s : String) : String := ⟨s.data.map Char.toLower⟩

/-- The ubiquitous source pattern `if vs, s, ok = tokenval(vs); !ok || s == ""`:
a required, non-empty token. `none` exactly when the Go code takes the
`errInvalidNumberOfArguments` return. -/
def reqTok (vs : List String) : Option (List String × String) :=
  match vs with
  | [] => none
  | v :: rest => if v = "" then none else some (rest, v)

/-! ## Geometry and error model -/

/-- `geometry.Point` (x = longitude, y = latitude). -/
structure Point where
  x : ℚ
  y : ℚ
deriving DecidableEq, Repr

/-- `geometry.Rect`. -/
structure Rect where
  min : Point
  max : Point
deriving DecidableEq, Repr

/-- Geometry values this layer builds or receives.  Constructions performed by
the external geometry library (`geojson.NewCircle`, `sectr.NewSector`,
`clip.Clip`, `buffer.Simple`, stored objects) are tracked symbolically. -/
inductive GeomObject where
  | nullGeom
  | point (p : Point)
  | circle (center : Point) (meters : ℚ) (steps : ℕ)
  | rect (r : Rect)
  | parsed (s : String)
  | sector (origin : Point) (meters b1 b2 : ℚ)
  | clipped (g : GeomObject) (clipRect : GeomObject)
  | buffered (g : GeomObject) (dist : ℚ)
deriving DecidableEq, Repr

/-- A Go `geojson.Object` interface value: `nil` becomes `nullGeom`. -/
def GeomObject.ofOption : Option GeomObject → GeomObject
  | none => .nullGeom
  | some g => g

/-- The error values `search.go` produces (`errNotRectangle`,
`errInvalidNumberOfArguments`, `errInvalidArgument(x)`, `errKeyNotFound`,
`errIDNotFound`, the equal-bearings `fmt.Errorf`, a geojson parse failure,
and plain `errors.New` messages). -/
inductive Err where
  | notRectangle
  | invalidNumArgs
  | invalidArgument (s : String)
  | keyNotFound
  | idNotFound
  | equalBearings (b1 b2 : String)
  | geojsonParseFail (s : String)
  | msg (s : String)
deriving DecidableEq, Repr

/-- Output modes of the base tokens (`outputObjects` is `defaultSearchOutput`). -/
inductive OutputMode where
  | objects
  | bounds
  | count
  | points
  | hashes
  | ids
deriving DecidableEq, Repr

/-- `defaultSearchOutput` from the external base-token parser. -/
def defaultSearchOutput : OutputMode := .objects

/-- `roamSwitches` (the Go field `on` is a Lean keyword, hence `roamOn`). -/
structure RoamSwitches where
  roamOn : Bool := false
  key : String := ""
  id : String := ""
  pattern : Bool := false
  meters : ℚ := 0
  scan : String := ""
deriving DecidableEq, Repr

/-- The fields of `searchScanBaseTokens` that `search.go` reads or writes.
Modelled from the spec where the external `parseSearchScanBaseTokens` is
concerned: that parser initializes `tileX`/`tileY`/`tileZ` to the `-1`
sentinel meaning "not a tile query". -/
structure SearchScanBaseTokens where
  key : String := ""
  fence : Bool := false
  clip : Bool := false
  output : OutputMode := defaultSearchOutput
  mvt : Bool := false
  tileX : ℤ := -1
  tileY : ℤ := -1
  tileZ : ℤ := -1
  hasbuffer : Bool := false
  buffer : ℚ := 0
  distance : Bool := false
  sparse : ℕ := 0
  cursor : ℕ := 0
  desc : Bool := false
  globs : List String := []
  wheres : List String := []
deriving DecidableEq, Repr

/-- `liveFenceSwitches`. -/
structure LiveFenceSwitches where
  base : SearchScanBaseTokens := {}
  obj : Option GeomObject := none
  cmd : String := ""
  roam : RoamSwitches := {}
deriving DecidableEq, Repr

/-- Modelled from the spec: the `goingLive` marker string that
`liveFenceSwitches.Error()` returns to signal fence conversion. -/
def goingLive : String := "going live"

/-- `liveFenceSwitches.Error()`: the value satisfies the error interface with
the `goingLive` marker as its message. -/
def LiveFenceSwitches.Error (_ : LiveFenceSwitches) : String := goingLive

/-- Modelled from the spec: `glob.IsGlob` of the external glob package — true
when the id contains a glob metacharacter. -/
def globIsGlob (s : String) : Bool :=
  s.toList.any fun c => c == '[' || c == '*' || c == '?'

/-- External collaborators, per §1/§6 of the spec: coordinate decoding
(geohash, quadkey, slippy tile), the geojson parser, the buffer primitive,
the collection store keyed by collection name then object id, and the
failure mode of scan-writer construction.  `bufferSimple` returns the pair
`(object, error)` exactly as `buffer.Simple` does. -/
structure Ext where
  geohashBounds : String → Rect
  quadkeyBounds : String → Option Rect
  tileBounds : ℤ → ℤ → ℤ → Rect
  geojsonParse : String → Option GeomObject
  bufferSimple : Option GeomObject → ℚ → Option GeomObject × Option Err
  colsGet : String → Option (String → Option GeomObject)
  newScanWriterErr : SearchScanBaseTokens → Option Err

/-! ## Tile-Rectangle Resolver (`parseRectArea`) -/

/-- `bing.MinLatitude`. -/
def minLatitude : ℚ := -85.05112878
/-- `bing.MaxLatitude`. -/
def maxLatitude : ℚ := 85.05112878
/-- `bing.MinLongitude`. -/
def minLongitude : ℚ := -180
/-- `bing.MaxLongitude`. -/
def maxLongitude : ℚ := 180
/-- `defaultCircleSteps`. -/
def defaultCircleSteps : ℕ := 64

/-- The `mvt` special rule of `parseRectArea` (lines 175–194): the four
sequential `+=`/`-=` expansions (each reading the current field values)
followed by the four clamps.  `0.1` is written `(1/10 : ℚ)`. -/
def mvtExpandClamp (r : Rect) : Rect :=
  let minY := r.min.y - (r.max.y - r.min.y) * (1/10 : ℚ)
  let maxY := r.max.y + (r.max.y - minY) * (1/10 : ℚ)
  let minX := r.min.x - (r.max.x - r.min.x) * (1/10 : ℚ)
  let maxX := r.max.x + (r.max.x - minX) * (1/10 : ℚ)
  let minY := if minY < minLatitude then minLatitude else minY
  let maxY := if maxY > maxLatitude then maxLatitude else maxY
  let minX := if minX < minLongitude then minLongitude else minX
  let maxX := if maxX > maxLongitude then maxLongitude else maxX
  ⟨⟨minX, minY⟩, ⟨maxX, maxY⟩⟩

/-- Named returns of `parseRectArea`; on the error paths the Go function
returns the zero values `nil, nil, 0, 0, 0` for the data outputs. -/
structure RectAreaOut where
  nvs : List String
  grect : Option GeomObject
  tileX : ℤ
  tileY : ℤ
  tileZ : ℤ
  err : Option Err
deriving DecidableEq, Repr

/-- An early `return` of `parseRectArea` with `err` set: all named data
returns still hold their zero values. -/
def rectAreaFail (e : Err) : RectAreaOut := ⟨[], none, 0, 0, 0, some e⟩

/-- `parseRectArea`.  The `mvt` expansion (which in the source sits after the
switch but is reachable only from the `tile`/`mvt` case) is applied inside
that case. -/
def parseRectArea (ext : Ext) (ltyp : String) (vs : List String) : RectAreaOut :=
  if ltyp = "bounds" then
    match reqTok vs with
    | none => rectAreaFail .invalidNumArgs
    | some (vs, sminLat) =>
    match reqTok vs with
    | none => rectAreaFail .invalidNumArgs
    | some (vs, sminLon) =>
    match reqTok vs with
    | none => rectAreaFail .invalidNumArgs
    | some (vs, smaxlat) =>
    match reqTok vs with
    | none => rectAreaFail .invalidNumArgs
    | some (vs, smaxlon) =>
    match parseFloat? sminLat with
    | none => rectAreaFail (.invalidArgument sminLat)
    | some minLat =>
    match parseFloat? sminLon with
    | none => rectAreaFail (.invalidArgument sminLon)
    | some minLon =>
    match parseFloat? smaxlat with
    | none => rectAreaFail (.invalidArgument smaxlat)
    | some maxLat =>
    match parseFloat? smaxlon with
    | none => rectAreaFail (.invalidArgument smaxlon)
    | some maxLon =>
      ⟨vs, some (.rect ⟨⟨minLon, minLat⟩, ⟨maxLon, maxLat⟩⟩), 0, 0, 0, none⟩
  else if ltyp = "hash" then
    match reqTok vs with
    | none => rectAreaFail .invalidNumArgs
    | some (vs, hash) =>
      ⟨vs, some (.rect (ext.geohashBounds hash)), 0, 0, 0, none⟩
  else if ltyp = "quadkey" then
    match reqTok vs with
    | none => rectAreaFail .invalidNumArgs
    | some (vs, key) =>
      match ext.quadkeyBounds key with
      | none => rectAreaFail (.invalidArgument key)
      | some r => ⟨vs, some (.rect r), 0, 0, 0, none⟩
  else if ltyp = "tile" ∨ ltyp = "mvt" then
    match reqTok vs with
    | none => rectAreaFail .invalidNumArgs
    | some (vs, sx) =>
    match reqTok vs with
    | none => rectAreaFail .invalidNumArgs
    | some (vs, sy) =>
    match reqTok vs with
    | none => rectAreaFail .invalidNumArgs
    | some (vs, sz) =>
    match parseInt? sx with
    | none => rectAreaFail (.invalidArgument sx)
    | some x =>
    if x < 0 then rectAreaFail (.invalidArgument sx) else
    match parseInt? sy with
    | none => rectAreaFail (.invalidArgument sy)
    | some y =>
    if y < 0 then rectAreaFail (.invalidArgument sy) else
    match parseInt? sz with
    | none => rectAreaFail (.invalidArgument sz)
    | some z =>
    if z < 0 ∨ z > 23 then rectAreaFail (.invalidArgument sz) else
    let rect := ext.tileBounds x y z
    let rect := if ltyp = "mvt" then mvtExpandClamp rect else rect
    ⟨vs, some (.rect rect), x, y, z, none⟩
  else rectAreaFail .notRectangle

/-! ## Target Resolver (`cmdSearchArgs`) -/

/-- Outcome of one arm of the kind switch in `cmdSearchArgs`: either an early
`return` of the whole function, or fall-through to the `clipby` loop with the
remaining tokens and the current value of the named return `err`. -/
inductive SwitchRes where
  | ret (lfs : LiveFenceSwitches) (err : Option Err)
  | cont (lfs : LiveFenceSwitches) (vs : List String) (err : Option Err)
deriving DecidableEq, Repr

/-- The `liveFenceSwitches` carried by a switch outcome. -/
def SwitchRes.lfsOf : SwitchRes → LiveFenceSwitches
  | .ret l _ => l
  | .cont l _ _ => l

/-- `case "point"` (lines 238–273): lat, lon; for `nearby` an optional radius
token follows (absent or empty → the `-1` unbounded sentinel); within and
intersects build a point. -/
def pointBranch (cmd : String) (lfs : LiveFenceSwitches) (vs : List String) : SwitchRes :=
  match reqTok vs with
  | none => .ret lfs (some .invalidNumArgs)
  | some (vs, slat) =>
  match reqTok vs with
  | none => .ret lfs (some .invalidNumArgs)
  | some (vs, slon) =>
  match parseFloat? slat with
  | none => .ret lfs (some (.invalidArgument slat))
  | some lat =>
  match parseFloat? slon with
  | none => .ret lfs (some (.invalidArgument slon))
  | some lon =>
  if cmd = "nearby" then
    match tokenval vs with
    | (vs2, smeters, ok) =>
      if ok ∧ smeters ≠ "" then
        match parseFloat? smeters with
        | none => .ret lfs (some (.invalidArgument smeters))
        | some meters =>
          if meters < 0 then .ret lfs (some (.invalidArgument smeters))
          else .cont { lfs with obj := some (.circle ⟨lon, lat⟩ meters defaultCircleSteps) } vs2 none
      else
        .cont { lfs with obj := some (.circle ⟨lon, lat⟩ (-1) defaultCircleSteps) } vs2 none
  else
    .cont { lfs with obj := some (.point ⟨lon, lat⟩) } vs none

/-- `case "circle"` (lines 274–306): clip is rejected, then lat, lon, radius
with the radius required to parse and be non-negative. -/
def circleBranch (lfs : LiveFenceSwitches) (vs : List String) : SwitchRes :=
  if lfs.base.clip then .ret lfs (some (.invalidArgument "cannot clip with circle"))
  else
  match reqTok vs with
  | none => .ret lfs (some .invalidNumArgs)
  | some (vs, slat) =>
  match reqTok vs with
  | none => .ret lfs (some .invalidNumArgs)
  | some (vs, slon) =>
  match parseFloat? slat with
  | none => .ret lfs (some (.invalidArgument slat))
  | some lat =>
  match parseFloat? slon with
  | none => .ret lfs (some (.invalidArgument slon))
  | some lon =>
  match reqTok vs with
  | none => .ret lfs (some .invalidNumArgs)
  | some (vs, smeters) =>
  match parseFloat? smeters with
  | none => .ret lfs (some (.invalidArgument smeters))
  | some meters =>
  if meters < 0 then .ret lfs (some (.invalidArgument smeters))
  else .cont { lfs with obj := some (.circle ⟨lon, lat⟩ meters defaultCircleSteps) } vs none

/-- `case "object"` (lines 307–320): clip is rejected, then one geometry
literal parsed by the external geojson parser. -/
def objectBranch (ext : Ext) (lfs : LiveFenceSwitches) (vs : List String) : SwitchRes :=
  if lfs.base.clip then .ret lfs (some (.invalidArgument "cannot clip with object"))
  else
  match reqTok vs with
  | none => .ret lfs (some .invalidNumArgs)
  | some (vs, sobj) =>
  match ext.geojsonParse sobj with
  | none => .ret lfs (some (.geojsonParseFail sobj))
  | some g => .cont { lfs with obj := some g } vs none

/-- `case "sector"` (lines 321–380): clip is rejected, five tokens, five float
parses, the equal-bearings check, then the externally generated sector
polygon. -/
def sectorBranch (lfs : LiveFenceSwitches) (vs : List String) : SwitchRes :=
  if lfs.base.clip then .ret lfs (some (.invalidArgument "cannot clip with sector"))
  else
  match reqTok vs with
  | none => .ret lfs (some .invalidNumArgs)
  | some (vs, slat) =>
  match reqTok vs with
  | none => .ret lfs (some .invalidNumArgs)
  | some (vs, slon) =>
  match reqTok vs with
  | none => .ret lfs (some .invalidNumArgs)
  | some (vs, smeters) =>
  match reqTok vs with
  | none => .ret lfs (some .invalidNumArgs)
  | some (vs, sb1) =>
  match reqTok vs with
  | none => .ret lfs (some .invalidNumArgs)
  | some (vs, sb2) =>
  match parseFloat? slat with
  | none => .ret lfs (some (.invalidArgument slat))
  | some lat =>
  match parseFloat? slon with
  | none => .ret lfs (some (.invalidArgument slon))
  | some lon =>
  match parseFloat? smeters with
  | none => .ret lfs (some (.invalidArgument smeters))
  | some meters =>
  match parseFloat? sb1 with
  | none => .ret lfs (some (.invalidArgument sb1))
  | some b1 =>
  match parseFloat? sb2 with
  | none => .ret lfs (some (.invalidArgument sb2))
  | some b2 =>
  if b1 = b2 then .ret lfs (some (.equalBearings sb1 sb2))
  else .cont { lfs with obj := some (.sector ⟨lon, lat⟩ meters b1 b2) } vs none

/-- `case "bounds", "hash", "tile", "mvt", "quadkey"` (lines 381–389):
delegate to `parseRectArea`; the Go multi-assignment writes all five data
outputs into `lfs` even when `err` is returned; on success the `mvt` kind
additionally sets the map-tile-format flag. -/
def rectBranch (ext : Ext) (ltyp : String) (lfs : LiveFenceSwitches) (vs : List String) : SwitchRes :=
  let r := parseRectArea ext ltyp vs
  let lfs := { lfs with
    obj := r.grect,
    base := { lfs.base with tileX := r.tileX, tileY := r.tileY, tileZ := r.tileZ } }
  match r.err with
  | some e => .ret lfs (some e)
  | none =>
    let lfs := if ltyp = "mvt" then { lfs with base := { lfs.base with mvt := true } } else lfs
    .cont lfs r.nvs none

/-- `case "get"` (lines 390–413).  Mirrors the source exactly: the clip check
sets `err` but has no `return`, so the key and id lookups still run and any
later assignment to `err` (missing key/id, a later clip clause, the buffer
step) replaces or clears the pending clip-incompatibility error. -/
def getBranch (ext : Ext) (lfs : LiveFenceSwitches) (vs : List String) : SwitchRes :=
  let err0 : Option Err :=
    if lfs.base.clip then some (.invalidArgument "cannot clip with get") else none
  match reqTok vs with
  | none => .ret lfs (some .invalidNumArgs)
  | some (vs, key) =>
  match reqTok vs with
  | none => .ret lfs (some .invalidNumArgs)
  | some (vs, id) =>
  match ext.colsGet key with
  | none => .ret lfs (some .keyNotFound)
  | some col =>
  match col id with
  | none => .ret lfs (some .idNotFound)
  | some geo => .cont { lfs with obj := some geo } vs err0

/-- `case "roam"` (lines 414–445): key, id-or-pattern (glob detection), a
radius that only needs to parse as a float, and an optional `scan field`
trailing clause. -/
def roamBranch (lfs : LiveFenceSwitches) (vs : List String) : SwitchRes :=
  let lfs := { lfs with roam := { lfs.roam with roamOn := true } }
  match reqTok vs with
  | none => .ret lfs (some .invalidNumArgs)
  | some (vs, rkey) =>
  let lfs := { lfs with roam := { lfs.roam with key := rkey } }
  match reqTok vs with
  | none => .ret lfs (some .invalidNumArgs)
  | some (vs, rid) =>
  let lfs := { lfs with roam := { lfs.roam with id := rid, pattern := globIsGlob rid } }
  match reqTok vs with
  | none => .ret lfs (some .invalidNumArgs)
  | some (vs, smeters) =>
  match parseFloat? smeters with
  | none => .ret lfs (some (.invalidArgument smeters))
  | some meters =>
  let lfs := { lfs with roam := { lfs.roam with meters := meters } }
  match tokenval vs with
  | (vs2, scan, ok) =>
    if ok then
      if strToLower scan ≠ "scan" then .ret lfs (some (.invalidArgument scan))
      else
        match reqTok vs2 with
        | none => .ret lfs (some .invalidNumArgs)
        | some (vs3, field) => .cont { lfs with roam := { lfs.roam with scan := field } } vs3 none
    else .cont lfs vs2 none

/-- The kind switch of `cmdSearchArgs` (lines 237–446); an unknown kind that
is nevertheless in the recognized set (such as `geo`) falls through
unchanged, as the Go switch has no default case. -/
def searchSwitch (ext : Ext) (cmd ltyp : String) (lfs : LiveFenceSwitches)
    (vs : List String) : SwitchRes :=
  if ltyp = "point" then pointBranch cmd lfs vs
  else if ltyp = "circle" then circleBranch lfs vs
  else if ltyp = "object" then objectBranch ext lfs vs
  else if ltyp = "sector" then sectorBranch lfs vs
  else if ltyp = "bounds" ∨ ltyp = "hash" ∨ ltyp = "tile" ∨ ltyp = "mvt" ∨ ltyp = "quadkey" then
    rectBranch ext ltyp lfs vs
  else if ltyp = "get" then getBranch ext lfs vs
  else if ltyp = "roam" then roamBranch lfs vs
  else .cont lfs vs none

/-- Outcome of the `clipby` loop: `ret` is a `return` statement inside the
loop body, `done` is normal loop exit (token stream exhausted) with the
current value of `err` still pending. -/
inductive LoopRes where
  | ret (lfs : LiveFenceSwitches) (err : Option Err)
  | done (lfs : LiveFenceSwitches) (err : Option Err)
deriving DecidableEq, Repr

/-- The `liveFenceSwitches` carried by a loop outcome. -/
def LoopRes.lfsOf : LoopRes → LiveFenceSwitches
  | .ret l _ => l
  | .done l _ => l

/-- The error value carried by a loop outcome. -/
def LoopRes.errOf : LoopRes → Option Err
  | .ret _ e => e
  | .done _ e => e

/-- One iteration of the `clipby` loop body: either a `return` statement was
taken (`stop`, always with an error), or the iteration clipped the target and
the loop continues on the remaining tokens. -/
inductive ClipStep where
  | stop (lfs : LiveFenceSwitches) (err : Option Err)
  | again (lfs : LiveFenceSwitches) (vs : List String)
deriving DecidableEq, Repr

/-- The `liveFenceSwitches` carried by a loop-body outcome. -/
def ClipStep.lfsOf : ClipStep → LiveFenceSwitches
  | .stop l _ => l
  | .again l _ => l

/-- The body of the `for len(vs) > 0` clip-composition loop (lines 450–479):
the literal `clipby`, a rectangle kind restricted to bounds/hash/tile/quadkey,
a re-run of `parseRectArea` (whose outputs, tile coordinates included, are
written into `lfs` by the Go multi-assignment), and the clip of the current
target. -/
def clipbyStep (ext : Ext) (lfs : LiveFenceSwitches) (vs : List String) : ClipStep :=
  match reqTok vs with
  | none => .stop lfs (some .invalidNumArgs)
  | some (vs1, tok) =>
    if strToLower tok ≠ "clipby" then .stop lfs (some .invalidNumArgs)
    else
      match reqTok vs1 with
      | none => .stop lfs (some .invalidNumArgs)
      | some (vs2, tok2) =>
        let ltok := strToLower tok2
        if ltok = "bounds" ∨ ltok = "hash" ∨ ltok = "tile" ∨ ltok = "quadkey" then
          let r := parseRectArea ext ltok vs2
          let lfs1 := { lfs with
            base := { lfs.base with tileX := r.tileX, tileY := r.tileY, tileZ := r.tileZ } }
          match r.err with
          | some e =>
            if e = .notRectangle then
              .stop lfs1 (some (.invalidArgument ("cannot clipby " ++ ltok)))
            else .stop lfs1 (some e)
          | none =>
            let newObj : GeomObject :=
              .clipped (GeomObject.ofOption lfs1.obj) (GeomObject.ofOption r.grect)
            .again { lfs1 with obj := some newObj } r.nvs
        else .stop lfs (some (.invalidArgument ("cannot clipby " ++ ltok)))

/-- The `for len(vs) > 0` clip-composition loop (lines 448–480): iterate
`clipbyStep` until the tokens run out (`done`, with the pending `err` — only
the `get` case can leave one — untouched when zero iterations run, and reset
to `nil` by the multi-assignment of every completed iteration).  The fuel
argument only bounds the recursion; it is instantiated with `vs.length`,
which the loop (consuming at least two tokens per iteration) can never
exhaust. -/
def clipbyLoop (ext : Ext) : ℕ → LiveFenceSwitches → Option Err → List String → LoopRes
  | _, lfs, err, [] => .done lfs err
  | 0, lfs, err, _ :: _ => .done lfs err
  | fuel + 1, lfs, _err, v :: rest =>
    match clipbyStep ext lfs (v :: rest) with
    | .stop lfs e => .ret lfs e
    | .again lfs vs => clipbyLoop ext fuel lfs none vs

/-- The trailing buffer step (lines 482–489): when the base tokens carried a
buffer distance, `lfs.obj, err = buffer.Simple(...)` — note this overwrites
the named return `err` (clearing a pending error on success). -/
def afterLoop (ext : Ext) (lfs : LiveFenceSwitches) (err : Option Err) :
    LiveFenceSwitches × Option Err :=
  if lfs.base.hasbuffer then
    let r := ext.bufferSimple lfs.obj lfs.base.buffer
    ({ lfs with obj := r.1 }, r.2)
  else (lfs, err)

/-- Body of `cmdSearchArgs` after the kind token is fixed: the recognized-set
check (with the roam-for-nearby-fence exception), the kind switch, the
`clipby` loop and the buffer step. -/
def cmdSearchArgsBody (ext : Ext) (cmd : String) (types : List String)
    (lfs : LiveFenceSwitches) (vs : List String) (typ : String) :
    LiveFenceSwitches × Option Err :=
  if ¬(strToLower typ ∈ types ∨
      (lfs.base.fence ∧ strToLower typ = "roam" ∧ cmd = "nearby")) then
    (lfs, some (.invalidArgument typ))
  else
    match searchSwitch ext cmd (strToLower typ) lfs vs with
    | .ret lfs err => (lfs, err)
    | .cont lfs vs err =>
      match clipbyLoop ext vs.length lfs err vs with
      | .ret lfs err => (lfs, err)
      | .done lfs err => afterLoop ext lfs err

/-- `cmdSearchArgs` (lines 199–490), taking the already-parsed base tokens
`t` (the external `parseSearchScanBaseTokens` stage) and the remaining token
stream.  Includes the implicit-bounds heuristic: output mode `bounds` on a
within/intersects command whose kind token parses as a float is re-read as
the first coordinate of a `BOUNDS` kind. -/
def cmdSearchArgs (ext : Ext) (cmd : String) (t : SearchScanBaseTokens)
    (vs : List String) (types : List String) : LiveFenceSwitches × Option Err :=
  match reqTok vs with
  | none => ({ base := t }, some .invalidNumArgs)
  | some (vs, typ) =>
    if t.output = .bounds ∧ (cmd = "within" ∨ cmd = "intersects") ∧
        (parseFloat? typ).isSome then
      cmdSearchArgsBody ext cmd types
        { base := { t with output := defaultSearchOutput } } (typ :: vs) "BOUNDS"
    else cmdSearchArgsBody ext cmd types { base := t } vs typ

/-! ## Query Executor dispatch -/

/-- `nearbyTypes`. -/
def nearbyTypes : List String := ["point"]

/-- `withinOrIntersectsTypes`. -/
def withinOrIntersectsTypes : List String :=
  ["geo", "bounds", "hash", "tile", "quadkey", "get", "object", "circle", "point", "sector", "mvt"]

/-- What a search command does after resolution, at the granularity the spec
describes: an error reply, the going-live signal carrying the descriptor, one
of the index traversals, a completed command that never touched the index
(absent collection or count short-circuit), or a runtime fault. -/
inductive ExecAction where
  | errored (e : Err)
  | live (lfs : LiveFenceSwitches)
  | nearbyKnn (lfs : LiveFenceSwitches) (maxDist : ℚ)
  | nearbySparse (lfs : LiveFenceSwitches) (maxDist : ℚ)
  | withinScan (lfs : LiveFenceSwitches)
  | intersectsScan (lfs : LiveFenceSwitches)
  | completedNoTraversal
  | panicked
deriving DecidableEq, Repr

/-- `cmdNearby` (lines 501–589) up to the choice of traversal: resolution,
the fence short-circuit (before any scan-writer or index work), scan-writer
construction, the `sw.col == nil` guard, the `*geojson.Circle` type
assertion, and the SPARSE dispatch with its unbounded-radius error. -/
def cmdNearby (ext : Ext) (t : SearchScanBaseTokens) (vs : List String) : ExecAction :=
  match cmdSearchArgs ext "nearby" t vs nearbyTypes with
  | (_, some e) => .errored e
  | (sargs, none) =>
    let sargs := { sargs with cmd := "nearby" }
    if sargs.base.fence then .live sargs
    else
      match ext.newScanWriterErr sargs.base with
      | some e => .errored e
      | none =>
        match ext.colsGet sargs.base.key with
        | none => .completedNoTraversal
        | some _ =>
          match sargs.obj with
          | some (.circle _ maxDist _) =>
            if sargs.base.sparse > 0 then
              if maxDist < 0 then
                .errored (.msg "cannot use SPARSE without a point distance")
              else .nearbySparse sargs maxDist
            else .nearbyKnn sargs maxDist
          | _ => .panicked

/-- `cmdWITHINorINTERSECTS` (lines 599–673) up to the choice of traversal. -/
def cmdWithinOrIntersects (ext : Ext) (cmd : String) (t : SearchScanBaseTokens)
    (vs : List String) : ExecAction :=
  match cmdSearchArgs ext cmd t vs withinOrIntersectsTypes with
  | (_, some e) => .errored e
  | (sargs, none) =>
    let sargs := { sargs with cmd := cmd }
    if sargs.base.fence then .live sargs
    else
      match ext.newScanWriterErr sargs.base with
      | some e => .errored e
      | none =>
        match ext.colsGet sargs.base.key with
        | none => .completedNoTraversal
        | some _ => if cmd = "within" then .withinScan sargs else .intersectsScan sargs

/-- The non-SPARSE `nearby` iterator (lines 566–577) applied to the stream of
candidates the index reports: a candidate is cut off (and the traversal
stopped) only when `maxDist > 0 ∧ dist > maxDist`; otherwise the candidate is
pushed with its distance, zeroed unless distance output was requested.  The
sink is modelled as accepting every candidate. -/
def nearbyIterate (maxDist : ℚ) (distance : Bool) :
    List (GeomObject × ℚ) → List (GeomObject × ℚ)
  | [] => []
  | od :: rest =>
    if maxDist > 0 ∧ od.2 > maxDist then []
    else (od.1, if distance then od.2 else 0) :: nearbyIterate maxDist distance rest

/-! ## Value-Range Deriver (`multiGlobParse`) and `cmdSearch` dispatch -/

/-- Modelled from Go's built-in `<` on `string` (byte-lexicographic, which on
valid UTF-8 agrees with the codepoint-lexicographic order of Lean strings);
phrased over the character list so that the kernel can evaluate it. -/
def strLt (a b : String) : Bool := decide (a.data < b.data)

/-- Iterations `i ≥ 1` of the `multiGlobParse` loop (lines 691–718), with the
accumulated limits: a pattern with both limits empty resets the result and
breaks; otherwise descending takes `max low`/`min high` and ascending takes
`min low`/`max high`, written with the source's `>`/`<` comparisons
(`strLt limits.1 g.1` is the source's `g.Limits[0] > limits[0]`). -/
def mgpLoop (parse : String → Bool → String × String) (desc : Bool) :
    List String → String × String → String × String
  | [], limits => limits
  | p :: rest, limits =>
    let g := parse p desc
    if g.1 = "" ∧ g.2 = "" then ("", "")
    else
      let limits :=
        if desc then
          (if strLt limits.1 g.1 then g.1 else limits.1,
           if strLt g.2 limits.2 then g.2 else limits.2)
        else
          (if strLt g.1 limits.1 then g.1 else limits.1,
           if strLt limits.2 g.2 then g.2 else limits.2)
      mgpLoop parse desc rest limits

/-- `multiGlobParse`, parameterized by the external `glob.Parse` limit
decoder.  Iteration `i = 0` installs the first pattern's limits (after the
same both-empty check); later iterations merge. -/
def multiGlobParse (parse : String → Bool → String × String)
    (globs : List String) (desc : Bool) : String × String :=
  match globs with
  | [] => ("", "")
  | p :: rest =>
    let g := parse p desc
    if g.1 = "" ∧ g.2 = "" then ("", "")
    else mgpLoop parse desc rest g

/-- The three ways `cmdSearch` (lines 750–789) can drive the collection. -/
inductive SearchAction where
  | countShortcut (n : ℕ)
  | searchValues (desc : Bool)
  | searchValuesRange (lo hi : String) (desc : Bool)
deriving DecidableEq, Repr

/-- The `cmdSearch` traversal dispatch (lines 750–789), over the scan-writer
state it consults: output mode, WHERE filters, the writer's
`globEverything` flag (true when the match patterns restrict nothing), the
collection's object count and the cursor.  COUNT output with no filters and
an unrestricted pattern short-circuits to `count − cursor` floored at zero;
otherwise derivable glob bounds choose `SearchValuesRange` over
`SearchValues`. -/
def cmdSearchDispatch (parse : String → Bool → String × String)
    (output : OutputMode) (wheres : List String) (globEverything : Bool)
    (colCount : ℕ) (cursor : ℕ) (globs : List String) (desc : Bool) : SearchAction :=
  if output = .count ∧ wheres = [] ∧ globEverything then
    .countShortcut (((colCount : ℤ) - (cursor : ℤ)).toNat)
  else
    let limits := multiGlobParse parse globs desc
    if limits.1 = "" ∧ limits.2 = "" then .searchValues desc
    else .searchValuesRange limits.1 limits.2 desc

/-! ## Concrete instantiations of the external collaborators, used to
evaluate the development on closed inputs -/

/-- A concrete external environment: fixed bounding boxes for the coordinate
decoders, a store with no collections. -/
def extEx : Ext where
  geohashBounds := fun _ => ⟨⟨0, 0⟩, ⟨1, 1⟩⟩
  quadkeyBounds := fun _ => none
  tileBounds := fun _ _ _ => ⟨⟨-90, 0⟩, ⟨0, 66⟩⟩
  geojsonParse := fun s => some (.parsed s)
  bufferSimple := fun g _ => (g, none)
  colsGet := fun _ => none
  newScanWriterErr := fun _ => none

/-- Like `extEx` but every collection name resolves to a collection with no
objects. -/
def extCol : Ext :=
  { extEx with colsGet := fun _ => some (fun _ => none) }

/-- Like `extEx` but every key and id lookup succeeds. -/
def extColFound : Ext :=
  { extEx with colsGet := fun _ => some (fun _ => some (.parsed "g")) }

/-- A concrete stand-in for the external `glob.Parse` limit decoder, used only
to instantiate theorems on closed inputs. -/
def parseEx : String → Bool → String × String :=
  fun p _ =>
    if p = "a*" then ("a", "b")
    else if p = "c*" then ("c", "d")
    else ("", "")

/-! ## Claim C10 -/

/-- C10: in the non-SPARSE nearby traversal the per-candidate distance cutoff
applies only for a strictly positive resolved radius: with radius exactly 0
the iterator pushes every reported candidate, exactly as the unbounded
sentinel −1 does; with radius r > 0 the pushed candidates are precisely the
longest prefix of the stream with distance ≤ r — the first candidate beyond r
is excluded and the traversal stops there. -/
theorem nearby_distance_cutoff (distance : Bool) (stream : List (GeomObject × ℚ)) :
    (nearbyIterate 0 distance stream =
        stream.map (fun od => (od.1, if distance then od.2 else 0)) ∧
      nearbyIterate (-1) distance stream =
        stream.map (fun od => (od.1, if distance then od.2 else 0))) ∧
    ∀ maxDist : ℚ, 0 < maxDist →
      nearbyIterate maxDist distance stream =
        (stream.takeWhile (fun od => decide (od.2 ≤ maxDist))).map
          (fun od => (od.1, if distance then od.2 else 0)) := by
  refine ⟨⟨?_, ?_⟩, ?_⟩
  · induction stream with
    | nil => rfl
    | cons od rest ih => simp [nearbyIterate, ih]
  · induction stream with
    | nil => rfl
    | cons od rest ih =>
      have : ¬((-1 : ℚ) > 0) := by norm_num
      simp [nearbyIterate, this, ih]
  · intro maxDist hpos
    induction stream with
    | nil => rfl
    | cons od rest ih =>
      by_cases h : od.2 > maxDist
      · simp [nearbyIterate, hpos, h, List.takeWhile_cons, not_le.2 h]
      · simp [nearbyIterate, h, List.takeWhile_cons, not_lt.1 h, ih]

/-- Witness for C10 at a concrete stream and radius. -/
theorem nearby_distance_cutoff_witness :
    (0 : ℚ) < 2 ∧
    nearbyIterate 2 true [(.point ⟨0, 0⟩, 1), (.point ⟨0, 1⟩, 3), (.point ⟨0, 2⟩, 1)] =
      [(.point ⟨0, 0⟩, 1)] := by
  have h := (nearby_distance_cutoff true
    [(.point ⟨0, 0⟩, 1), (.point ⟨0, 1⟩, 3), (.point ⟨0, 2⟩, 1)]).2 2 (by norm_num)
  exact ⟨by norm_num, by rw [h]; decide⟩

/-! ## Claim C6 -/

/-- C6: a search whose output mode is COUNT, with no WHERE filters and an
unrestricted match pattern, short-circuits to `max(totalCount − cursor, 0)`
without any traversal call (`countShortcut` is the branch that never touches
`SearchValues`/`SearchValuesRange`). -/
theorem search_count_shortcut (parse : String → Bool → String × String)
    (colCount cursor : ℕ) (globs : List String) (desc : Bool) :
    cmdSearchDispatch parse .count [] true colCount cursor globs desc =
      .countShortcut (((colCount : ℤ) - (cursor : ℤ)).toNat) ∧
    ((((colCount : ℤ) - (cursor : ℤ)).toNat : ℤ) = max ((colCount : ℤ) - (cursor : ℤ)) 0) := by
  refine ⟨by simp [cmdSearchDispatch], ?_⟩
  omega

/-! ## Claim C7 -/

theorem strLt_iff (a b : String) : strLt a b = true ↔ a < b := by
  simp [strLt]

theorem ite_strLt_max (a b : String) : (if strLt a b then b else a) = max a b := by
  rcases lt_or_le a b with h | h
  · rw [if_pos ((strLt_iff a b).2 h), max_eq_right h.le]
  · rw [if_neg (by simp [strLt_iff, not_lt.2 h]), max_eq_left h]

theorem ite_strLt_min (a b : String) : (if strLt b a then b else a) = min a b := by
  rcases lt_or_le b a with h | h
  · rw [if_pos ((strLt_iff b a).2 h), min_eq_right h.le]
  · rw [if_neg (by simp [strLt_iff, not_lt.2 h]), min_eq_left h]

theorem mgpLoop_break (parse : String → Bool → String × String) (desc : Bool)
    (l : List String) (acc : String × String)
    (h : ∃ p ∈ l, parse p desc = ("", "")) : mgpLoop parse desc l acc = ("", "") := by
  induction l generalizing acc with
  | nil => rcases h with ⟨p, hp, _⟩; cases hp
  | cons q rest ih =>
    by_cases hq : (parse q desc).1 = "" ∧ (parse q desc).2 = ""
    · simp [mgpLoop, hq]
    · have hrest : ∃ p ∈ rest, parse p desc = ("", "") := by
        rcases h with ⟨p, hp, hpe⟩
        rcases List.mem_cons.1 hp with rfl | hmem
        · exact absurd ⟨by rw [hpe], by rw [hpe]⟩ hq
        · exact ⟨p, hmem, hpe⟩
      simp only [mgpLoop, if_neg hq]
      exact ih _ hrest

theorem mgpLoop_minmax (parse : String → Bool → String × String) (desc : Bool)
    (l : List String) (acc : String × String)
    (h : ∀ p ∈ l, ¬((parse p desc).1 = "" ∧ (parse p desc).2 = "")) :
    mgpLoop parse desc l acc =
      (l.foldl (fun a p => if desc then max a (parse p desc).1 else min a (parse p desc).1) acc.1,
       l.foldl (fun a p => if desc then min a (parse p desc).2 else max a (parse p desc).2) acc.2) := by
  induction l generalizing acc with
  | nil => rfl
  | cons q rest ih =>
    have hq := h q (List.mem_cons_self q rest)
    have hrest : ∀ p ∈ rest, ¬((parse p desc).1 = "" ∧ (parse p desc).2 = "") :=
      fun p hp => h p (List.mem_cons_of_mem q hp)
    simp only [mgpLoop, if_neg hq]
    rw [ih _ hrest]
    cases desc <;>
      simp [List.foldl_cons, ite_strLt_max, ite_strLt_min]

/-- C7: derived value-range bounds.  If any pattern decodes to the empty
limit pair, the result is the empty pair regardless of the other patterns;
otherwise ascending order yields (min of the lows, max of the highs) and
descending order yields (max of the lows, min of the highs), in the
byte-lexicographic string order. -/
theorem value_range_bounds (parse : String → Bool → String × String)
    (globs : List String) (desc : Bool) :
    ((∃ p ∈ globs, parse p desc = ("", "")) →
        multiGlobParse parse globs desc = ("", "")) ∧
    (globs ≠ [] → (∀ p ∈ globs, ¬ parse p desc = ("", "")) →
      some (multiGlobParse parse globs desc).1 =
        (if desc then (globs.map fun p => (parse p desc).1).max?
          else (globs.map fun p => (parse p desc).1).min?) ∧
      some (multiGlobParse parse globs desc).2 =
        (if desc then (globs.map fun p => (parse p desc).2).min?
          else (globs.map fun p => (parse p desc).2).max?)) := by
  constructor
  · intro h
    match globs, h with
    | q :: rest, h =>
      by_cases hq : (parse q desc).1 = "" ∧ (parse q desc).2 = ""
      · simp [multiGlobParse, hq]
      · have hrest : ∃ p ∈ rest, parse p desc = ("", "") := by
          rcases h with ⟨p, hp, hpe⟩
          rcases List.mem_cons.1 hp with rfl | hmem
          · exact absurd ⟨by rw [hpe], by rw [hpe]⟩ hq
          · exact ⟨p, hmem, hpe⟩
        simp only [multiGlobParse, if_neg hq]
        exact mgpLoop_break parse desc rest _ hrest
  · intro hne hall
    match globs, hne with
    | q :: rest, _ =>
      have hq : ¬((parse q desc).1 = "" ∧ (parse q desc).2 = "") := by
        intro hc
        exact hall q (List.mem_cons_self q rest) (Prod.ext hc.1 hc.2)
      have hrest : ∀ p ∈ rest, ¬((parse p desc).1 = "" ∧ (parse p desc).2 = "") := by
        intro p hp hc
        exact hall p (List.mem_cons_of_mem q hp) (Prod.ext hc.1 hc.2)
      simp only [multiGlobParse, if_neg hq]
      rw [mgpLoop_minmax parse desc rest _ hrest]
      constructor <;> cases desc <;>
        simp [List.min?, List.max?, List.foldl_map]

/-- Witness for C7: a wildcard pattern forces the empty pair, and two
prefixed patterns combine to (min low, max high) under ascending order. -/
theorem value_range_bounds_witness :
    multiGlobParse parseEx ["*"] false = ("", "") ∧
    multiGlobParse parseEx ["a*", "c*"] false = ("a", "d") := by
  constructor
  · exact (value_range_bounds parseEx ["*"] false).1 ⟨"*", by decide, by decide⟩
  · have h := (value_range_bounds parseEx ["a*", "c*"] false).2 (by decide) (by decide)
    have h1 := h.1
    have h2 := h.2
    simp only [if_neg (Bool.false_ne_true)] at h1 h2
    have hmin : min ("a" : String) "c" = "a" :=
      min_eq_left (by rw [String.le_iff_toList_le]; decide)
    have hmax : max ("b" : String) "d" = "d" :=
      max_eq_right (by rw [String.le_iff_toList_le]; decide)
    have e1 : (["a*", "c*"].map fun p => (parseEx p false).1).min? = some "a" := by
      simp [parseEx, List.min?, hmin]
    have e2 : (["a*", "c*"].map fun p => (parseEx p false).2).max? = some "d" := by
      simp [parseEx, List.max?, hmax]
    rw [e1] at h1
    rw [e2] at h2
    exact Prod.ext (Option.some.inj h1.symm).symm (Option.some.inj h2.symm).symm

/-! ## Claim C3 -/

/-- C3: when resolution succeeds and the resolved descriptor carries the
fence flag, each of the three search commands stops before any scan-writer
construction or index work and yields the going-live signal (a value whose
error message is the `goingLive` marker) carrying the fully resolved
descriptor (with its command name filled in); in the execution model the
`live` outcome is disjoint from every traversal outcome. -/
theorem fence_requests_go_live (ext : Ext) (t : SearchScanBaseTokens) (vs : List String) :
    (∀ sargs, cmdSearchArgs ext "nearby" t vs nearbyTypes = (sargs, none) →
      sargs.base.fence = true →
        cmdNearby ext t vs = .live { sargs with cmd := "nearby" } ∧
        LiveFenceSwitches.Error { sargs with cmd := "nearby" } = goingLive) ∧
    (∀ cmd, (cmd = "within" ∨ cmd = "intersects") → ∀ sargs,
      cmdSearchArgs ext cmd t vs withinOrIntersectsTypes = (sargs, none) →
      sargs.base.fence = true →
        cmdWithinOrIntersects ext cmd t vs = .live { sargs with cmd := cmd } ∧
        LiveFenceSwitches.Error { sargs with cmd := cmd } = goingLive) := by
  constructor
  · intro sargs h hf
    refine ⟨?_, rfl⟩
    simp only [cmdNearby, h]
    simp [hf]
  · intro cmd _ sargs h hf
    refine ⟨?_, rfl⟩
    simp only [cmdWithinOrIntersects, h]
    simp [hf]

/-- Witness for C3 at concrete fence requests. -/
theorem fence_requests_go_live_witness :
    cmdNearby extEx { fence := true } ["point", "1", "2"] =
      .live { base := { fence := true },
              obj := some (.circle ⟨2, 1⟩ (-1) defaultCircleSteps), cmd := "nearby" } ∧
    cmdWithinOrIntersects extEx "within" { fence := true } ["point", "1", "2"] =
      .live { base := { fence := true },
              obj := some (.point ⟨2, 1⟩), cmd := "within" } := by
  constructor
  · exact ((fence_requests_go_live extEx { fence := true } ["point", "1", "2"]).1
      { base := { fence := true }, obj := some (.circle ⟨2, 1⟩ (-1) defaultCircleSteps) }
      (by decide) rfl).1
  · exact ((fence_requests_go_live extEx { fence := true } ["point", "1", "2"]).2
      "within" (Or.inl rfl)
      { base := { fence := true }, obj := some (.point ⟨2, 1⟩) }
      (by decide) rfl).1

/-! ## Claim C5 -/

/-- C5 counterexample: a SPARSE nearby with the unbounded sentinel radius but
a key that resolves to no collection returns an empty success — the
`sw.col != nil` guard sits in front of the sparse/radius check, so the
claimed error is not raised for every such command. -/
theorem nearby_sparse_missing_key :
    cmdNearby extEx { key := "k", sparse := 2 } ["point", "1", "2"] = .completedNoTraversal ∧
    ¬ cmdNearby extEx { key := "k", sparse := 2 } ["point", "1", "2"] =
        .errored (.msg "cannot use SPARSE without a point distance") := by
  exact ⟨by decide, by decide⟩

/-- C5 as amended: provided the scan writer is built without error and binds
an existing collection, a SPARSE nearby request whose resolved circle has a
negative (unbounded-sentinel) radius fails with the SPARSE error before any
traversal, and with a non-negative radius it dispatches to the
intersects-based clustered traversal instead of the nearest-first one. -/
theorem nearby_sparse_dispatch (ext : Ext) (t : SearchScanBaseTokens) (vs : List String)
    (sargs : LiveFenceSwitches) (center : Point) (maxDist : ℚ) (steps : ℕ)
    (col : String → Option GeomObject)
    (hres : cmdSearchArgs ext "nearby" t vs nearbyTypes = (sargs, none))
    (hfence : sargs.base.fence = false)
    (hsw : ext.newScanWriterErr sargs.base = none)
    (hcol : ext.colsGet sargs.base.key = some col)
    (hobj : sargs.obj = some (.circle center maxDist steps))
    (hsparse : 0 < sargs.base.sparse) :
    (maxDist < 0 →
      cmdNearby ext t vs = .errored (.msg "cannot use SPARSE without a point distance")) ∧
    (0 ≤ maxDist →
      cmdNearby ext t vs = .nearbySparse { sargs with cmd := "nearby" } maxDist) := by
  obtain ⟨base, obj, cmd0, roam⟩ := sargs
  constructor
  · intro hm
    simp only [cmdNearby, hres]
    simp_all
  · intro hm
    simp only [cmdNearby, hres]
    simp_all [not_lt.2 hm]

/-- Witness for C5 (amended) at concrete inputs with an existing collection:
radius sentinel −1 yields the SPARSE error, radius 5 yields the clustered
intersects dispatch. -/
theorem nearby_sparse_dispatch_witness :
    cmdNearby extCol { key := "k", sparse := 2 } ["point", "1", "2"] =
      .errored (.msg "cannot use SPARSE without a point distance") ∧
    cmdNearby extCol { key := "k", sparse := 2 } ["point", "1", "2", "5"] =
      .nearbySparse { base := { key := "k", sparse := 2 },
                      obj := some (.circle ⟨2, 1⟩ 5 defaultCircleSteps), cmd := "nearby" } 5 := by
  constructor
  · exact (nearby_sparse_dispatch extCol { key := "k", sparse := 2 } ["point", "1", "2"]
      { base := { key := "k", sparse := 2 },
        obj := some (.circle ⟨2, 1⟩ (-1) defaultCircleSteps) }
      ⟨2, 1⟩ (-1) defaultCircleSteps (fun _ => none)
      (by decide) rfl rfl rfl rfl (by decide)).1 (by norm_num)
  · exact (nearby_sparse_dispatch extCol { key := "k", sparse := 2 } ["point", "1", "2", "5"]
      { base := { key := "k", sparse := 2 },
        obj := some (.circle ⟨2, 1⟩ 5 defaultCircleSteps) }
      ⟨2, 1⟩ 5 defaultCircleSteps (fun _ => none)
      (by decide) rfl rfl rfl rfl (by decide)).2 (by norm_num)

/-! ## Claim C2 -/

/-- C2: the `get` case of `cmdSearchArgs` sets the clip-incompatibility error
without returning (the `return` every sibling case has is missing), so with a
clip requested (1) a missing key replaces the error with `keyNotFound`,
(2) a successful lookup still runs and the stored geometry is installed
before the pending clip error is finally returned, and (3) a trailing buffer
step clears the error entirely and the command resolves successfully. -/
theorem get_clip_error_replaced :
    (cmdSearchArgs extEx "within" { clip := true } ["get", "k", "i"]
        withinOrIntersectsTypes).2 = some Err.keyNotFound ∧
    (cmdSearchArgs extColFound "within" { clip := true } ["get", "k", "i"]
        withinOrIntersectsTypes) =
      ({ base := { clip := true }, obj := some (.parsed "g") },
        some (.invalidArgument "cannot clip with get")) ∧
    (cmdSearchArgs extColFound "within" { clip := true, hasbuffer := true } ["get", "k", "i"]
        withinOrIntersectsTypes).2 = none := by
  exact ⟨by decide, by decide, by decide⟩

/-! ## Claim C4: invariant lemmas over the resolver -/

theorem reqTok_tok_ne : ∀ {vs vs' : List String} {tok : String},
    reqTok vs = some (vs', tok) → tok ≠ "" := by
  intro vs vs' tok h
  match vs with
  | [] => simp [reqTok] at h
  | v :: rest =>
    simp only [reqTok] at h
    split at h
    · cases h
    · next hv =>
      rw [Option.some.injEq, Prod.mk.injEq] at h
      rw [← h.2]
      exact hv

theorem pointBranch_lfs_roam (cmd : String) (lfs : LiveFenceSwitches) (vs : List String) :
    ((pointBranch cmd lfs vs).lfsOf).roam = lfs.roam := by
  unfold pointBranch
  repeat' split
  all_goals simp [SwitchRes.lfsOf]

theorem circleBranch_lfs_roam (lfs : LiveFenceSwitches) (vs : List String) :
    ((circleBranch lfs vs).lfsOf).roam = lfs.roam := by
  unfold circleBranch
  repeat' split
  all_goals simp [SwitchRes.lfsOf]

theorem objectBranch_lfs_roam (ext : Ext) (lfs : LiveFenceSwitches) (vs : List String) :
    ((objectBranch ext lfs vs).lfsOf).roam = lfs.roam := by
  unfold objectBranch
  repeat' split
  all_goals simp [SwitchRes.lfsOf]

theorem sectorBranch_lfs_roam (lfs : LiveFenceSwitches) (vs : List String) :
    ((sectorBranch lfs vs).lfsOf).roam = lfs.roam := by
  unfold sectorBranch
  repeat' split
  all_goals simp [SwitchRes.lfsOf]

theorem rectBranch_lfs_roam (ext : Ext) (ltyp : String) (lfs : LiveFenceSwitches)
    (vs : List String) : ((rectBranch ext ltyp lfs vs).lfsOf).roam = lfs.roam := by
  unfold rectBranch
  cases hE : (parseRectArea ext ltyp vs).err
  · simp only [hE]
    split <;> simp [SwitchRes.lfsOf]
  · simp [hE, SwitchRes.lfsOf]

theorem getBranch_lfs_roam (ext : Ext) (lfs : LiveFenceSwitches) (vs : List String) :
    ((getBranch ext lfs vs).lfsOf).roam = lfs.roam := by
  unfold getBranch
  repeat' split
  all_goals simp [SwitchRes.lfsOf]

theorem roamBranch_cont : ∀ {lfs : LiveFenceSwitches} {vs vs' : List String}
    {l : LiveFenceSwitches} {e : Option Err},
    roamBranch lfs vs = .cont l vs' e → l.roam.id ≠ "" ∧ e = none := by
  intro lfs vs vs' l e h
  unfold roamBranch at h
  repeat' split at h
  all_goals cases h
  all_goals refine ⟨?_, rfl⟩
  all_goals simp
  all_goals exact reqTok_tok_ne (by assumption)

theorem pointBranch_ret_some : ∀ {cmd : String} {lfs : LiveFenceSwitches} {vs : List String}
    {l : LiveFenceSwitches} {e : Option Err},
    pointBranch cmd lfs vs = .ret l e → e ≠ none := by
  intro cmd lfs vs l e h
  unfold pointBranch at h
  repeat' split at h
  all_goals cases h
  all_goals simp

theorem circleBranch_ret_some : ∀ {lfs : LiveFenceSwitches} {vs : List String}
    {l : LiveFenceSwitches} {e : Option Err},
    circleBranch lfs vs = .ret l e → e ≠ none := by
  intro lfs vs l e h
  unfold circleBranch at h
  repeat' split at h
  all_goals cases h
  all_goals simp

theorem objectBranch_ret_some : ∀ {ext : Ext} {lfs : LiveFenceSwitches} {vs : List String}
    {l : LiveFenceSwitches} {e : Option Err},
    objectBranch ext lfs vs = .ret l e → e ≠ none := by
  intro ext lfs vs l e h
  unfold objectBranch at h
  repeat' split at h
  all_goals cases h
  all_goals simp

theorem sectorBranch_ret_some : ∀ {lfs : LiveFenceSwitches} {vs : List String}
    {l : LiveFenceSwitches} {e : Option Err},
    sectorBranch lfs vs = .ret l e → e ≠ none := by
  intro lfs vs l e h
  unfold sectorBranch at h
  repeat' split at h
  all_goals cases h
  all_goals simp

theorem rectBranch_ret_some : ∀ {ext : Ext} {ltyp : String} {lfs : LiveFenceSwitches}
    {vs : List String} {l : LiveFenceSwitches} {e : Option Err},
    rectBranch ext ltyp lfs vs = .ret l e → e ≠ none := by
  intro ext ltyp lfs vs l e h
  unfold rectBranch at h
  cases hE : (parseRectArea ext ltyp vs).err
  · simp only [hE] at h
    split at h <;> cases h
  · simp only [hE] at h
    cases h
    simp

theorem getBranch_ret_some : ∀ {ext : Ext} {lfs : LiveFenceSwitches} {vs : List String}
    {l : LiveFenceSwitches} {e : Option Err},
    getBranch ext lfs vs = .ret l e → e ≠ none := by
  intro ext lfs vs l e h
  unfold getBranch at h
  repeat' split at h
  all_goals cases h
  all_goals simp

theorem roamBranch_ret_some : ∀ {lfs : LiveFenceSwitches} {vs : List String}
    {l : LiveFenceSwitches} {e : Option Err},
    roamBranch lfs vs = .ret l e → e ≠ none := by
  intro lfs vs l e h
  unfold roamBranch at h
  repeat' split at h
  all_goals cases h
  all_goals simp

theorem searchSwitch_ret_some : ∀ {ext : Ext} {cmd ltyp : String} {lfs : LiveFenceSwitches}
    {vs : List String} {l : LiveFenceSwitches} {e : Option Err},
    searchSwitch ext cmd ltyp lfs vs = .ret l e → e ≠ none := by
  intro ext cmd ltyp lfs vs l e h
  unfold searchSwitch at h
  repeat' split at h
  · exact pointBranch_ret_some h
  · exact circleBranch_ret_some h
  · exact objectBranch_ret_some h
  · exact sectorBranch_ret_some h
  · exact rectBranch_ret_some h
  · exact getBranch_ret_some h
  · exact roamBranch_ret_some h
  · cases h

theorem searchSwitch_cont_roam : ∀ {ext : Ext} {cmd ltyp : String} {lfs : LiveFenceSwitches}
    {vs vs' : List String} {l : LiveFenceSwitches} {e : Option Err},
    lfs.roam.roamOn = false →
    searchSwitch ext cmd ltyp lfs vs = .cont l vs' e →
    (l.roam.roamOn = true → l.roam.id ≠ "") := by
  intro ext cmd ltyp lfs vs vs' l e h0 h hOn
  have pres : ∀ r : SwitchRes, r = SwitchRes.cont l vs' e → r.lfsOf.roam = lfs.roam →
      l.roam.id ≠ "" := by
    intro r hr hpres
    subst hr
    simp only [SwitchRes.lfsOf] at hpres
    rw [hpres] at hOn
    rw [h0] at hOn
    cases hOn
  unfold searchSwitch at h
  repeat' split at h
  · exact pres _ h (pointBranch_lfs_roam cmd lfs vs)
  · exact pres _ h (circleBranch_lfs_roam lfs vs)
  · exact pres _ h (objectBranch_lfs_roam ext lfs vs)
  · exact pres _ h (sectorBranch_lfs_roam lfs vs)
  · exact pres _ h (rectBranch_lfs_roam ext ltyp lfs vs)
  · exact pres _ h (getBranch_lfs_roam ext lfs vs)
  · exact (roamBranch_cont h).1
  · exact pres _ h (by cases h; rfl)

theorem clipbyStep_cases (ext : Ext) (lfs : LiveFenceSwitches) (vs : List String) :
    ((clipbyStep ext lfs vs).lfsOf).roam = lfs.roam ∧
    (∀ l e, clipbyStep ext lfs vs = .stop l e → e ≠ none) := by
  unfold clipbyStep
  cases hq : reqTok vs with
  | none => exact ⟨rfl, by intro l e h; cases h; simp⟩
  | some p =>
    obtain ⟨vs1, tok⟩ := p
    dsimp only
    by_cases h1 : strToLower tok ≠ "clipby"
    · rw [if_pos h1]
      exact ⟨rfl, by intro l e h; cases h; simp⟩
    · rw [if_neg h1]
      cases hq2 : reqTok vs1 with
      | none => exact ⟨rfl, by intro l e h; cases h; simp⟩
      | some p2 =>
        obtain ⟨vs2, tok2⟩ := p2
        dsimp only
        by_cases h2 : strToLower tok2 = "bounds" ∨ strToLower tok2 = "hash" ∨
            strToLower tok2 = "tile" ∨ strToLower tok2 = "quadkey"
        · rw [if_pos h2]
          cases hE : (parseRectArea ext (strToLower tok2) vs2).err with
          | none => exact ⟨rfl, by intro l e h; cases h⟩
          | some e0 =>
            dsimp only
            by_cases h3 : e0 = Err.notRectangle
            · rw [if_pos h3]
              exact ⟨rfl, by intro l e h; cases h; simp⟩
            · rw [if_neg h3]
              exact ⟨rfl, by intro l e h; cases h; simp⟩
        · rw [if_neg h2]
          exact ⟨rfl, by intro l e h; cases h; simp⟩

theorem clipbyStep_lfs_roam (ext : Ext) (lfs : LiveFenceSwitches) (vs : List String) :
    ((clipbyStep ext lfs vs).lfsOf).roam = lfs.roam :=
  (clipbyStep_cases ext lfs vs).1

theorem clipbyStep_stop_some : ∀ {ext : Ext} {lfs : LiveFenceSwitches} {vs : List String}
    {l : LiveFenceSwitches} {e : Option Err},
    clipbyStep ext lfs vs = .stop l e → e ≠ none := by
  intro ext lfs vs l e h
  exact (clipbyStep_cases ext lfs vs).2 l e h

theorem clipbyLoop_lfs_roam (ext : Ext) : ∀ (n : ℕ) (lfs : LiveFenceSwitches)
    (err : Option Err) (vs : List String),
    ((clipbyLoop ext n lfs err vs).lfsOf).roam = lfs.roam := by
  intro n
  induction n with
  | zero =>
    intro lfs err vs
    cases vs <;> simp [clipbyLoop, LoopRes.lfsOf]
  | succ n ih =>
    intro lfs err vs
    cases vs with
    | nil => simp [clipbyLoop, LoopRes.lfsOf]
    | cons v rest =>
      rw [clipbyLoop]
      cases hs : clipbyStep ext lfs (v :: rest) with
      | stop l2 e2 =>
        have hpres := clipbyStep_lfs_roam ext lfs (v :: rest)
        rw [hs] at hpres
        exact hpres
      | again l2 vs2 =>
        have hpres := clipbyStep_lfs_roam ext lfs (v :: rest)
        rw [hs] at hpres
        simp only [ClipStep.lfsOf] at hpres
        exact (ih l2 none vs2).trans hpres

theorem clipbyLoop_ret_some (ext : Ext) : ∀ (n : ℕ) (lfs : LiveFenceSwitches)
    (err : Option Err) (vs : List String) (l : LiveFenceSwitches) (e : Option Err),
    clipbyLoop ext n lfs err vs = .ret l e → e ≠ none := by
  intro n
  induction n with
  | zero =>
    intro lfs err vs l e h
    cases vs <;> simp [clipbyLoop] at h
  | succ n ih =>
    intro lfs err vs l e h
    cases vs with
    | nil => simp [clipbyLoop] at h
    | cons v rest =>
      rw [clipbyLoop] at h
      cases hs : clipbyStep ext lfs (v :: rest) with
      | stop l2 e2 =>
        rw [hs] at h
        cases h
        exact clipbyStep_stop_some hs
      | again l2 vs2 =>
        rw [hs] at h
        exact ih _ _ _ _ _ h

theorem afterLoop_lfs_roam (ext : Ext) (lfs : LiveFenceSwitches) (err : Option Err) :
    ((afterLoop ext lfs err).1).roam = lfs.roam := by
  unfold afterLoop
  split <;> rfl

theorem cmdSearchArgsBody_roam : ∀ {ext : Ext} {cmd : String} {types : List String}
    {lfs : LiveFenceSwitches} {vs : List String} {typ : String} {sargs : LiveFenceSwitches},
    lfs.roam.roamOn = false →
    cmdSearchArgsBody ext cmd types lfs vs typ = (sargs, none) →
    (sargs.roam.roamOn = true → sargs.roam.id ≠ "") := by
  intro ext cmd types lfs vs typ sargs h0 h
  unfold cmdSearchArgsBody at h
  split at h
  · simp at h
  · split at h
    · next lfs1 err1 heq =>
      rw [Prod.mk.injEq] at h
      rw [h.2] at heq
      exact absurd rfl (searchSwitch_ret_some heq)
    · next lfs1 vs1 err1 heq =>
      split at h
      · next l2 e2 heq2 =>
        rw [Prod.mk.injEq] at h
        rw [h.2] at heq2
        exact absurd rfl (clipbyLoop_ret_some ext _ _ _ _ _ _ heq2)
      · next l2 e2 heq2 =>
        intro hOn
        have hroam : sargs.roam = lfs1.roam := by
          have ha := afterLoop_lfs_roam ext l2 e2
          have hl : l2.roam = lfs1.roam := by
            have := clipbyLoop_lfs_roam ext vs1.length lfs1 err1 vs1
            rw [heq2] at this
            exact this
          have h1 : (afterLoop ext l2 e2).1 = sargs := by rw [h]
          rw [← h1, ha, hl]
        rw [hroam] at hOn ⊢
        exact searchSwitch_cont_roam h0 heq hOn

/-- C4 counterexample: a roam clause whose radius token parses to the
negative number −5 resolves successfully (no error) with
`radiusMeters = −5 < 0`, refuting both the non-negativity invariant and the
claimed rejection of negative radii. -/
theorem roam_negative_radius_accepted :
    (cmdSearchArgs extEx "nearby" { fence := true } ["roam", "fleet", "truck", "-5"]
        nearbyTypes).2 = none ∧
    (cmdSearchArgs extEx "nearby" { fence := true } ["roam", "fleet", "truck", "-5"]
        nearbyTypes).1.roam.roamOn = true ∧
    (cmdSearchArgs extEx "nearby" { fence := true } ["roam", "fleet", "truck", "-5"]
        nearbyTypes).1.roam.meters = -5 := by
  exact ⟨by decide, by decide, by decide⟩

/-- C4 as amended: on every successfully resolved roam descriptor the
reference id-or-pattern is non-empty, but the radius is only required to
parse as a float — there is no sign check, so a negative radius is accepted
and `radiusMeters ≥ 0` does not hold in general. -/
theorem roam_id_nonempty (ext : Ext) (cmd : String) (t : SearchScanBaseTokens)
    (vs types : List String) (sargs : LiveFenceSwitches)
    (h : cmdSearchArgs ext cmd t vs types = (sargs, none))
    (hr : sargs.roam.roamOn = true) : sargs.roam.id ≠ "" := by
  unfold cmdSearchArgs at h
  split at h
  · simp at h
  · split at h
    · exact cmdSearchArgsBody_roam rfl h hr
    · exact cmdSearchArgsBody_roam rfl h hr

/-- Witness for C4 (amended) at a concrete successful roam resolution. -/
theorem roam_id_nonempty_witness :
    (cmdSearchArgs extEx "nearby" { fence := true } ["roam", "fleet", "truck", "7"]
        nearbyTypes).1.roam.id ≠ "" := by
  exact roam_id_nonempty extEx "nearby" { fence := true } ["roam", "fleet", "truck", "7"]
    nearbyTypes
    (cmdSearchArgs extEx "nearby" { fence := true } ["roam", "fleet", "truck", "7"]
      nearbyTypes).1
    (by decide) (by decide)

/-! ## Evaluation lemmas shared by claims C8 and C9 -/

theorem parseFloat?_empty : parseFloat? "" = none := by decide

theorem parseFloat?_ne_empty : ∀ {s : String} {q : ℚ},
    parseFloat? s = some q → s ≠ "" := by
  intro s q h hs
  subst hs
  rw [parseFloat?_empty] at h
  cases h

theorem reqTok_cons {v : String} (rest : List String) (h : v ≠ "") :
    reqTok (v :: rest) = some (rest, v) := by
  simp [reqTok, h]

theorem cmdSearchArgs_eq_body (ext : Ext) (cmd : String) (t : SearchScanBaseTokens)
    (typ : String) (rest : List String) (types : List String)
    (htyp : typ ≠ "")
    (hno : ¬(t.output = .bounds ∧ (cmd = "within" ∨ cmd = "intersects") ∧
        (parseFloat? typ).isSome)) :
    cmdSearchArgs ext cmd t (typ :: rest) types =
      cmdSearchArgsBody ext cmd types { base := t } rest typ := by
  unfold cmdSearchArgs
  simp only [reqTok_cons rest htyp]
  rw [if_neg hno]

theorem cmdSearchArgsBody_of_cont (ext : Ext) (cmd : String) (types : List String)
    (lfs : LiveFenceSwitches) (vs : List String) (typ : String)
    (lfs1 : LiveFenceSwitches) (err1 : Option Err)
    (hfound : strToLower typ ∈ types ∨
      (lfs.base.fence ∧ strToLower typ = "roam" ∧ cmd = "nearby"))
    (hsw : searchSwitch ext cmd (strToLower typ) lfs vs = .cont lfs1 [] err1) :
    cmdSearchArgsBody ext cmd types lfs vs typ = afterLoop ext lfs1 err1 := by
  unfold cmdSearchArgsBody
  rw [if_neg (not_not_intro hfound), hsw]
  rfl

theorem cmdSearchArgsBody_of_ret (ext : Ext) (cmd : String) (types : List String)
    (lfs : LiveFenceSwitches) (vs : List String) (typ : String)
    (lfs1 : LiveFenceSwitches) (err1 : Option Err)
    (hfound : strToLower typ ∈ types ∨
      (lfs.base.fence ∧ strToLower typ = "roam" ∧ cmd = "nearby"))
    (hsw : searchSwitch ext cmd (strToLower typ) lfs vs = .ret lfs1 err1) :
    cmdSearchArgsBody ext cmd types lfs vs typ = (lfs1, err1) := by
  unfold cmdSearchArgsBody
  rw [if_neg (not_not_intro hfound), hsw]

theorem afterLoop_nobuffer (ext : Ext) (lfs : LiveFenceSwitches) (err : Option Err)
    (h : lfs.base.hasbuffer = false) : afterLoop ext lfs err = (lfs, err) := by
  unfold afterLoop
  rw [if_neg (by rw [h]; exact Bool.false_ne_true)]

/-! ## Claim C8 -/

theorem pointBranch_nearby_eval (lfs : LiveFenceSwitches) (slat slon : String)
    (lat lon : ℚ) (hlat : parseFloat? slat = some lat) (hlon : parseFloat? slon = some lon) :
    pointBranch "nearby" lfs [slat, slon] =
      .cont { lfs with obj := some (.circle ⟨lon, lat⟩ (-1) defaultCircleSteps) } [] none ∧
    (∀ sr r, parseFloat? sr = some r →
      pointBranch "nearby" lfs [slat, slon, sr] =
        (if r < 0 then .ret lfs (some (.invalidArgument sr))
          else .cont { lfs with obj := some (.circle ⟨lon, lat⟩ r defaultCircleSteps) } [] none)) ∧
    (∀ sr, sr ≠ "" → parseFloat? sr = none →
      pointBranch "nearby" lfs [slat, slon, sr] = .ret lfs (some (.invalidArgument sr))) ∧
    pointBranch "within" lfs [slat, slon] =
      .cont { lfs with obj := some (.point ⟨lon, lat⟩) } [] none := by
  have e1 : reqTok [slat, slon] = some ([slon], slat) :=
    reqTok_cons [slon] (parseFloat?_ne_empty hlat)
  have e1r : ∀ sr : String, reqTok [slat, slon, sr] = some ([slon, sr], slat) :=
    fun sr => reqTok_cons [slon, sr] (parseFloat?_ne_empty hlat)
  have e2 : reqTok [slon] = some ([], slon) :=
    reqTok_cons [] (parseFloat?_ne_empty hlon)
  have e2r : ∀ sr : String, reqTok [slon, sr] = some ([sr], slon) :=
    fun sr => reqTok_cons [sr] (parseFloat?_ne_empty hlon)
  refine ⟨?_, ?_, ?_, ?_⟩
  · simp [pointBranch, e1, e2, hlat, hlon, tokenval]
  · intro sr r hsr
    have hsrne := parseFloat?_ne_empty hsr
    by_cases hneg : r < 0
    · simp [pointBranch, e1r, e2r, hlat, hlon, tokenval, hsrne, hsr, hneg]
    · simp [pointBranch, e1r, e2r, hlat, hlon, tokenval, hsrne, hsr, hneg]
  · intro sr hsrne hsr
    simp [pointBranch, e1r, e2r, hlat, hlon, tokenval, hsrne, hsr]
  · simp [pointBranch, e1, e2, hlat, hlon]

/-- C8: resolution of `NEARBY key POINT lat lon [radius]`.  Without a radius
token the target is a circle with the unbounded sentinel radius −1; a radius
token must parse as a float and be ≥ 0 (otherwise the invalid-argument
error), and radius 0 yields a zero-radius circle, not the sentinel. -/
theorem nearby_point_radius (ext : Ext) (t : SearchScanBaseTokens)
    (slat slon : String) (lat lon : ℚ)
    (hlat : parseFloat? slat = some lat) (hlon : parseFloat? slon = some lon)
    (hbuf : t.hasbuffer = false) :
    cmdSearchArgs ext "nearby" t ["point", slat, slon] nearbyTypes =
      ({ base := t, obj := some (.circle ⟨lon, lat⟩ (-1) defaultCircleSteps) }, none) ∧
    (∀ sr r, parseFloat? sr = some r → 0 ≤ r →
      cmdSearchArgs ext "nearby" t ["point", slat, slon, sr] nearbyTypes =
        ({ base := t, obj := some (.circle ⟨lon, lat⟩ r defaultCircleSteps) }, none)) ∧
    (∀ sr r, parseFloat? sr = some r → r < 0 →
      cmdSearchArgs ext "nearby" t ["point", slat, slon, sr] nearbyTypes =
        ({ base := t }, some (.invalidArgument sr))) ∧
    (∀ sr, sr ≠ "" → parseFloat? sr = none →
      cmdSearchArgs ext "nearby" t ["point", slat, slon, sr] nearbyTypes =
        ({ base := t }, some (.invalidArgument sr))) := by
  have hno : ¬(t.output = .bounds ∧ (("nearby" : String) = "within" ∨
      ("nearby" : String) = "intersects") ∧ (parseFloat? "point").isSome) := by
    rintro ⟨-, hc, -⟩
    rcases hc with hc | hc <;> exact absurd hc (by decide)
  have hfound : strToLower "point" ∈ nearbyTypes ∨
      (({ base := t } : LiveFenceSwitches).base.fence ∧ strToLower "point" = "roam" ∧
        ("nearby" : String) = "nearby") := by
    left; decide
  have hswitch : ∀ vs : List String,
      searchSwitch ext "nearby" (strToLower "point") { base := t } vs =
        pointBranch "nearby" { base := t } vs := by
    intro vs
    have : strToLower "point" = "point" := by decide
    rw [this]
    simp [searchSwitch]
  have hpt := pointBranch_nearby_eval { base := t } slat slon lat lon hlat hlon
  refine ⟨?_, ?_, ?_, ?_⟩
  · rw [cmdSearchArgs_eq_body ext "nearby" t "point" [slat, slon] nearbyTypes
        (by decide) hno,
      cmdSearchArgsBody_of_cont ext "nearby" nearbyTypes { base := t } [slat, slon] "point"
        _ none hfound (by rw [hswitch]; exact hpt.1),
      afterLoop_nobuffer ext _ none hbuf]
  · intro sr r hsr hr
    rw [cmdSearchArgs_eq_body ext "nearby" t "point" [slat, slon, sr] nearbyTypes
        (by decide) hno,
      cmdSearchArgsBody_of_cont ext "nearby" nearbyTypes { base := t } [slat, slon, sr] "point"
        _ none hfound
        (by rw [hswitch]
            rw [hpt.2.1 sr r hsr]
            rw [if_neg (not_lt.2 hr)]),
      afterLoop_nobuffer ext _ none hbuf]
  · intro sr r hsr hr
    rw [cmdSearchArgs_eq_body ext "nearby" t "point" [slat, slon, sr] nearbyTypes
        (by decide) hno,
      cmdSearchArgsBody_of_ret ext "nearby" nearbyTypes { base := t } [slat, slon, sr] "point"
        _ _ hfound
        (by rw [hswitch]
            rw [hpt.2.1 sr r hsr]
            rw [if_pos hr])]
  · intro sr hsrne hsr
    rw [cmdSearchArgs_eq_body ext "nearby" t "point" [slat, slon, sr] nearbyTypes
        (by decide) hno,
      cmdSearchArgsBody_of_ret ext "nearby" nearbyTypes { base := t } [slat, slon, sr] "point"
        _ _ hfound
        (by rw [hswitch]; exact hpt.2.2.1 sr hsrne hsr)]

/-- Witness for C8 at concrete coordinates: no radius token gives the −1
sentinel circle, radius `0` gives a zero-radius circle, radius `-2` is
rejected. -/
theorem nearby_point_radius_witness :
    cmdSearchArgs extEx "nearby" {} ["point", "3", "4"] nearbyTypes =
      ({ base := {}, obj := some (.circle ⟨4, 3⟩ (-1) defaultCircleSteps) }, none) ∧
    cmdSearchArgs extEx "nearby" {} ["point", "3", "4", "0"] nearbyTypes =
      ({ base := {}, obj := some (.circle ⟨4, 3⟩ 0 defaultCircleSteps) }, none) ∧
    cmdSearchArgs extEx "nearby" {} ["point", "3", "4", "-2"] nearbyTypes =
      ({ base := {} }, some (.invalidArgument "-2")) := by
  have h := nearby_point_radius extEx {} "3" "4" 3 4 (by decide) (by decide) rfl
  exact ⟨h.1, h.2.1 "0" 0 (by decide) (by norm_num),
    h.2.2.1 "-2" (-2) (by decide) (by norm_num)⟩

/-! ## Claim C9 -/

/-- C9 counterexample: a successfully resolved `BOUNDS` target does not carry
the −1 sentinel — `parseRectArea`'s named tile returns are the zero values
`0, 0, 0` for non-tile rectangle kinds, and the multi-assignment writes them
into the descriptor. -/
theorem bounds_target_tile_fields_zero :
    (cmdSearchArgs extEx "within" {} ["bounds", "0", "0", "1", "1"]
        withinOrIntersectsTypes).2 = none ∧
    (cmdSearchArgs extEx "within" {} ["bounds", "0", "0", "1", "1"]
        withinOrIntersectsTypes).1.base.tileX ≠ -1 ∧
    (cmdSearchArgs extEx "within" {} ["bounds", "0", "0", "1", "1"]
        withinOrIntersectsTypes).1.base.tileY ≠ -1 ∧
    (cmdSearchArgs extEx "within" {} ["bounds", "0", "0", "1", "1"]
        withinOrIntersectsTypes).1.base.tileZ ≠ -1 := by
  exact ⟨by decide, by decide, by decide, by decide⟩

theorem parseRectArea_bounds_eval (ext : Ext) (sa sb sc sd : String)
    (qa qb qc qd : ℚ) (rest : List String)
    (ha : parseFloat? sa = some qa) (hb : parseFloat? sb = some qb)
    (hc : parseFloat? sc = some qc) (hd : parseFloat? sd = some qd) :
    parseRectArea ext "bounds" (sa :: sb :: sc :: sd :: rest) =
      ⟨rest, some (.rect ⟨⟨qb, qa⟩, ⟨qd, qc⟩⟩), 0, 0, 0, none⟩ := by
  unfold parseRectArea
  rw [if_pos rfl]
  simp only [reqTok_cons _ (parseFloat?_ne_empty ha),
    reqTok_cons _ (parseFloat?_ne_empty hb),
    reqTok_cons _ (parseFloat?_ne_empty hc),
    reqTok_cons _ (parseFloat?_ne_empty hd),
    ha, hb, hc, hd]

theorem rectBranch_bounds_eval (ext : Ext) (lfs : LiveFenceSwitches)
    (sa sb sc sd : String) (qa qb qc qd : ℚ)
    (ha : parseFloat? sa = some qa) (hb : parseFloat? sb = some qb)
    (hc : parseFloat? sc = some qc) (hd : parseFloat? sd = some qd) :
    rectBranch ext "bounds" lfs [sa, sb, sc, sd] =
      .cont { lfs with obj := some (.rect ⟨⟨qb, qa⟩, ⟨qd, qc⟩⟩), base := { lfs.base with tileX := 0, tileY := 0, tileZ := 0 } } [] none := by
  unfold rectBranch
  rw [parseRectArea_bounds_eval ext sa sb sc sd qa qb qc qd [] ha hb hc hd]
  rfl

/-- The tile-coordinate triple of a descriptor. -/
def tileFields (l : LiveFenceSwitches) : ℤ × ℤ × ℤ :=
  (l.base.tileX, l.base.tileY, l.base.tileZ)

theorem pointBranch_lfs_tile (cmd : String) (lfs : LiveFenceSwitches) (vs : List String) :
    tileFields ((pointBranch cmd lfs vs).lfsOf) = tileFields lfs := by
  unfold pointBranch
  repeat' split
  all_goals simp [SwitchRes.lfsOf, tileFields]

theorem circleBranch_lfs_tile (lfs : LiveFenceSwitches) (vs : List String) :
    tileFields ((circleBranch lfs vs).lfsOf) = tileFields lfs := by
  unfold circleBranch
  repeat' split
  all_goals simp [SwitchRes.lfsOf, tileFields]

theorem objectBranch_lfs_tile (ext : Ext) (lfs : LiveFenceSwitches) (vs : List String) :
    tileFields ((objectBranch ext lfs vs).lfsOf) = tileFields lfs := by
  unfold objectBranch
  repeat' split
  all_goals simp [SwitchRes.lfsOf, tileFields]

theorem sectorBranch_lfs_tile (lfs : LiveFenceSwitches) (vs : List String) :
    tileFields ((sectorBranch lfs vs).lfsOf) = tileFields lfs := by
  unfold sectorBranch
  repeat' split
  all_goals simp [SwitchRes.lfsOf, tileFields]

theorem getBranch_lfs_tile (ext : Ext) (lfs : LiveFenceSwitches) (vs : List String) :
    tileFields ((getBranch ext lfs vs).lfsOf) = tileFields lfs := by
  unfold getBranch
  repeat' split
  all_goals simp [SwitchRes.lfsOf, tileFields]

theorem roamBranch_lfs_tile (lfs : LiveFenceSwitches) (vs : List String) :
    tileFields ((roamBranch lfs vs).lfsOf) = tileFields lfs := by
  unfold roamBranch
  repeat' split
  all_goals simp [SwitchRes.lfsOf, tileFields]

theorem searchSwitch_nonrect_tile (ext : Ext) (cmd ltyp : String)
    (lfs : LiveFenceSwitches) (vs : List String)
    (h : ¬(ltyp = "bounds" ∨ ltyp = "hash" ∨ ltyp = "tile" ∨ ltyp = "mvt" ∨
      ltyp = "quadkey")) :
    tileFields ((searchSwitch ext cmd ltyp lfs vs).lfsOf) = tileFields lfs := by
  unfold searchSwitch
  repeat' split
  all_goals first
    | exact pointBranch_lfs_tile cmd lfs vs
    | exact circleBranch_lfs_tile lfs vs
    | exact objectBranch_lfs_tile ext lfs vs
    | exact sectorBranch_lfs_tile lfs vs
    | exact getBranch_lfs_tile ext lfs vs
    | exact roamBranch_lfs_tile lfs vs
    | (next hc => exact absurd hc h)
    | rfl

theorem clipbyLoop_nil (ext : Ext) (n : ℕ) (lfs : LiveFenceSwitches) (err : Option Err) :
    clipbyLoop ext n lfs err [] = .done lfs err := by
  cases n <;> rfl

theorem rectBranch_tile_outputs (ext : Ext) (ltyp : String) (lfs : LiveFenceSwitches)
    (vs : List String) :
    tileFields ((rectBranch ext ltyp lfs vs).lfsOf) =
      ((parseRectArea ext ltyp vs).tileX, (parseRectArea ext ltyp vs).tileY,
        (parseRectArea ext ltyp vs).tileZ) := by
  unfold rectBranch
  cases hE : (parseRectArea ext ltyp vs).err
  · simp only [hE]
    split <;> simp [SwitchRes.lfsOf, tileFields]
  · simp [hE, SwitchRes.lfsOf, tileFields]

theorem parseRectArea_nontile_zero (ext : Ext) (ltyp : String) (vs : List String)
    (hk : ltyp = "bounds" ∨ ltyp = "hash" ∨ ltyp = "quadkey") :
    (parseRectArea ext ltyp vs).tileX = 0 ∧ (parseRectArea ext ltyp vs).tileY = 0 ∧
      (parseRectArea ext ltyp vs).tileZ = 0 := by
  rcases hk with rfl | rfl | rfl
  · unfold parseRectArea
    rw [if_pos rfl]
    repeat' split
    all_goals simp [rectAreaFail]
  · unfold parseRectArea
    rw [if_neg (by decide : ¬("hash" : String) = "bounds"), if_pos rfl]
    repeat' split
    all_goals simp [rectAreaFail]
  · unfold parseRectArea
    rw [if_neg (by decide : ¬("quadkey" : String) = "bounds"),
      if_neg (by decide : ¬("quadkey" : String) = "hash"), if_pos rfl]
    repeat' split
    all_goals simp [rectAreaFail]

theorem parseInt?_empty : parseInt? "" = none := by decide

theorem parseInt?_ne_empty : ∀ {s : String} {n : ℤ},
    parseInt? s = some n → s ≠ "" := by
  intro s n h hs
  subst hs
  rw [parseInt?_empty] at h
  cases h

theorem parseRectArea_tile_eval (ext : Ext) (sx sy sz : String) (rest : List String)
    (x y z : ℤ)
    (hx : parseInt? sx = some x) (hy : parseInt? sy = some y) (hz : parseInt? sz = some z)
    (hx0 : 0 ≤ x) (hy0 : 0 ≤ y) (hz0 : 0 ≤ z) (hz23 : z ≤ 23) :
    parseRectArea ext "tile" (sx :: sy :: sz :: rest) =
      ⟨rest, some (.rect (ext.tileBounds x y z)), x, y, z, none⟩ := by
  unfold parseRectArea
  rw [if_neg (by decide : ¬("tile" : String) = "bounds"),
    if_neg (by decide : ¬("tile" : String) = "hash"),
    if_neg (by decide : ¬("tile" : String) = "quadkey"),
    if_pos (Or.inl rfl : ("tile" : String) = "tile" ∨ ("tile" : String) = "mvt")]
  simp only [reqTok_cons _ (parseInt?_ne_empty hx),
    reqTok_cons _ (parseInt?_ne_empty hy),
    reqTok_cons _ (parseInt?_ne_empty hz), hx, hy, hz]
  rw [if_neg (not_lt.2 hx0), if_neg (not_lt.2 hy0),
    if_neg (by rintro (hq | hq) <;> omega : ¬(z < 0 ∨ z > 23)),
    if_neg (by decide : ¬("tile" : String) = "mvt")]

theorem clipbyStep_tile_overwrite (ext : Ext) (lfs : LiveFenceSwitches)
    (tok tok2 : String) (vs2 : List String)
    (h1 : strToLower tok = "clipby")
    (h2 : strToLower tok2 = "bounds" ∨ strToLower tok2 = "hash" ∨
      strToLower tok2 = "tile" ∨ strToLower tok2 = "quadkey") :
    tileFields ((clipbyStep ext lfs (tok :: tok2 :: vs2)).lfsOf) =
      ((parseRectArea ext (strToLower tok2) vs2).tileX,
        (parseRectArea ext (strToLower tok2) vs2).tileY,
        (parseRectArea ext (strToLower tok2) vs2).tileZ) := by
  have htok : tok ≠ "" := by
    intro he
    rw [he] at h1
    exact absurd h1 (by decide)
  have htok2 : tok2 ≠ "" := by
    intro he
    rw [he] at h2
    rcases h2 with h | h | h | h <;> exact absurd h (by decide)
  unfold clipbyStep
  simp only [reqTok_cons _ htok]
  rw [if_neg (not_not_intro h1)]
  simp only [reqTok_cons _ htok2]
  rw [if_pos h2]
  cases hE : (parseRectArea ext (strToLower tok2) vs2).err with
  | none =>
    simp only [hE]
    simp [ClipStep.lfsOf, tileFields]
  | some e0 =>
    simp only [hE]
    by_cases h3 : e0 = Err.notRectangle
    · rw [if_pos h3]
      simp [ClipStep.lfsOf, tileFields]
    · rw [if_neg h3]
      simp [ClipStep.lfsOf, tileFields]

/-- C9 as amended: the −1 sentinel in tileX/tileY/tileZ survives only
through target kinds that never call `parseRectArea` and zero `clipby`
clauses.  In order: (1) every non-rectangle kind (point, circle, object,
sector, get, roam, or an unknown kind) leaves the descriptor's tile fields
untouched; (2) an empty `clipby` token stream leaves the descriptor
untouched; (3) a rectangle kind overwrites the tile fields with
`parseRectArea`'s named outputs; (4) for bounds, hash and quadkey those
outputs are the Go zero values 0,0,0 — not −1 — on every path; (5) for a
tile kind they are the parsed x,y,z; (6) a `clipby` clause overwrites the
fields with the clip rectangle's parse outputs (hence 0,0,0 for a
bounds/hash/quadkey clip and the actual x,y,z for a tile clip); and
end-to-end, (7) a point target preserves the base tokens (with their −1
sentinel) while (8) a bounds target resolves with tile fields 0,0,0. -/
theorem tile_sentinel_fields (ext : Ext) :
    (∀ cmd ltyp lfs vs,
      ¬(ltyp = "bounds" ∨ ltyp = "hash" ∨ ltyp = "tile" ∨ ltyp = "mvt" ∨
        ltyp = "quadkey") →
      tileFields ((searchSwitch ext cmd ltyp lfs vs).lfsOf) = tileFields lfs) ∧
    (∀ n lfs err, clipbyLoop ext n lfs err [] = .done lfs err) ∧
    (∀ ltyp lfs vs, tileFields ((rectBranch ext ltyp lfs vs).lfsOf) =
      ((parseRectArea ext ltyp vs).tileX, (parseRectArea ext ltyp vs).tileY,
        (parseRectArea ext ltyp vs).tileZ)) ∧
    (∀ ltyp vs, (ltyp = "bounds" ∨ ltyp = "hash" ∨ ltyp = "quadkey") →
      (parseRectArea ext ltyp vs).tileX = 0 ∧ (parseRectArea ext ltyp vs).tileY = 0 ∧
        (parseRectArea ext ltyp vs).tileZ = 0) ∧
    (∀ sx sy sz rest x y z, parseInt? sx = some x → parseInt? sy = some y →
      parseInt? sz = some z → 0 ≤ x → 0 ≤ y → 0 ≤ z → z ≤ 23 →
      parseRectArea ext "tile" (sx :: sy :: sz :: rest) =
        ⟨rest, some (.rect (ext.tileBounds x y z)), x, y, z, none⟩) ∧
    (∀ lfs tok tok2 vs2, strToLower tok = "clipby" →
      (strToLower tok2 = "bounds" ∨ strToLower tok2 = "hash" ∨
        strToLower tok2 = "tile" ∨ strToLower tok2 = "quadkey") →
      tileFields ((clipbyStep ext lfs (tok :: tok2 :: vs2)).lfsOf) =
        ((parseRectArea ext (strToLower tok2) vs2).tileX,
          (parseRectArea ext (strToLower tok2) vs2).tileY,
          (parseRectArea ext (strToLower tok2) vs2).tileZ)) ∧
    (∀ t : SearchScanBaseTokens, ∀ slat slon lat lon, t.hasbuffer = false →
      parseFloat? slat = some lat → parseFloat? slon = some lon →
      cmdSearchArgs ext "within" t ["point", slat, slon] withinOrIntersectsTypes =
        ({ base := t, obj := some (.point ⟨lon, lat⟩) }, none)) ∧
    (∀ t : SearchScanBaseTokens, ∀ sa sb sc sd qa qb qc qd, t.hasbuffer = false →
      parseFloat? sa = some qa → parseFloat? sb = some qb →
      parseFloat? sc = some qc → parseFloat? sd = some qd →
      cmdSearchArgs ext "within" t ["bounds", sa, sb, sc, sd] withinOrIntersectsTypes =
        ({ base := { t with tileX := 0, tileY := 0, tileZ := 0 }, obj := some (.rect ⟨⟨qb, qa⟩, ⟨qd, qc⟩⟩) }, none)) := by
  refine ⟨fun cmd ltyp lfs vs h => searchSwitch_nonrect_tile ext cmd ltyp lfs vs h,
    fun n lfs err => clipbyLoop_nil ext n lfs err,
    fun ltyp lfs vs => rectBranch_tile_outputs ext ltyp lfs vs,
    fun ltyp vs hk => parseRectArea_nontile_zero ext ltyp vs hk,
    fun sx sy sz rest x y z hx hy hz hx0 hy0 hz0 hz23 =>
      parseRectArea_tile_eval ext sx sy sz rest x y z hx hy hz hx0 hy0 hz0 hz23,
    fun lfs tok tok2 vs2 h1 h2 => clipbyStep_tile_overwrite ext lfs tok tok2 vs2 h1 h2,
    ?_, ?_⟩
  · intro t slat slon lat lon hbuf hlat hlon
    have hno : ¬(t.output = .bounds ∧ (("within" : String) = "within" ∨
        ("within" : String) = "intersects") ∧ (parseFloat? "point").isSome) := by
      rintro ⟨-, -, hcq⟩
      rw [show parseFloat? "point" = none from by decide] at hcq
      exact absurd hcq (by decide)
    have hfound : strToLower "point" ∈ withinOrIntersectsTypes ∨
        (({ base := t } : LiveFenceSwitches).base.fence ∧ strToLower "point" = "roam" ∧
          ("within" : String) = "nearby") := by
      left; decide
    have hpt := pointBranch_nearby_eval { base := t } slat slon lat lon hlat hlon
    rw [cmdSearchArgs_eq_body ext "within" t "point" [slat, slon] withinOrIntersectsTypes
        (by decide) hno,
      cmdSearchArgsBody_of_cont ext "within" withinOrIntersectsTypes { base := t }
        [slat, slon] "point" _ none hfound
        (by rw [show strToLower "point" = "point" from by decide]
            rw [show searchSwitch ext "within" "point" { base := t } [slat, slon] =
                pointBranch "within" { base := t } [slat, slon] from by simp [searchSwitch]]
            exact hpt.2.2.2),
      afterLoop_nobuffer ext _ none hbuf]
  · intro t sa sb sc sd qa qb qc qd hbuf ha hb hc hd
    have hno : ¬(t.output = .bounds ∧ (("within" : String) = "within" ∨
        ("within" : String) = "intersects") ∧ (parseFloat? "bounds").isSome) := by
      rintro ⟨-, -, hcq⟩
      rw [show parseFloat? "bounds" = none from by decide] at hcq
      exact absurd hcq (by decide)
    have hfound : strToLower "bounds" ∈ withinOrIntersectsTypes ∨
        (({ base := t } : LiveFenceSwitches).base.fence ∧ strToLower "bounds" = "roam" ∧
          ("within" : String) = "nearby") := by
      left; decide
    rw [cmdSearchArgs_eq_body ext "within" t "bounds" [sa, sb, sc, sd]
        withinOrIntersectsTypes (by decide) hno,
      cmdSearchArgsBody_of_cont ext "within" withinOrIntersectsTypes { base := t }
        [sa, sb, sc, sd] "bounds" _ none hfound
        (by rw [show strToLower "bounds" = "bounds" from by decide]
            rw [show searchSwitch ext "within" "bounds" { base := t } [sa, sb, sc, sd] =
                rectBranch ext "bounds" { base := t } [sa, sb, sc, sd] from by
              simp [searchSwitch]]
            exact rectBranch_bounds_eval ext { base := t } sa sb sc sd qa qb qc qd ha hb hc hd),
      afterLoop_nobuffer ext { base := { t with tileX := 0, tileY := 0, tileZ := 0 }, obj := some (.rect ⟨⟨qb, qa⟩, ⟨qd, qc⟩⟩) } none hbuf]

/-- Witness for C9 (amended): a point target keeps the −1 sentinel of the
base tokens, a bounds target ends with tile coordinates 0,0,0, and a
`CLIPBY TILE 3 4 5` clause overwrites the fields with 3,4,5. -/
theorem tile_sentinel_fields_witness :
    cmdSearchArgs extEx "within" {} ["point", "5", "6"] withinOrIntersectsTypes =
      ({ base := {}, obj := some (.point ⟨6, 5⟩) }, none) ∧
    cmdSearchArgs extEx "within" {} ["bounds", "0", "0", "1", "1"] withinOrIntersectsTypes =
      ({ base := { tileX := 0, tileY := 0, tileZ := 0 },
         obj := some (.rect ⟨⟨0, 0⟩, ⟨1, 1⟩⟩) }, none) ∧
    tileFields ((clipbyStep extEx {} ["CLIPBY", "TILE", "3", "4", "5"]).lfsOf) =
      (3, 4, 5) := by
  have h := tile_sentinel_fields extEx
  refine ⟨h.2.2.2.2.2.2.1 {} "5" "6" 5 6 rfl (by decide) (by decide),
    h.2.2.2.2.2.2.2 {} "0" "0" "1" "1" 0 0 1 1 rfl (by decide) (by decide) (by decide)
      (by decide), ?_⟩
  have h6 := h.2.2.2.2.2.1 {} "CLIPBY" "TILE" ["3", "4", "5"] (by decide) (by decide)
  rw [h6]
  rw [show strToLower "TILE" = "tile" from by decide]
  rw [h.2.2.2.2.1 "3" "4" "5" [] 3 4 5 (by decide) (by decide) (by decide) (by decide)
    (by decide) (by decide) (by decide)]

/-! ## Claim C1 -/

/-- Follows the spec's words for claim C1 (and only them): expand the tile
rectangle by 10% of its height on the latitude axis and 10% of its width on
the longitude axis, symmetrically on both sides (min and max edges each move
outward by the same amount), then clamp each edge to the valid ranges. -/
def mvtExpandClampSpec (r : Rect) : Rect :=
  let minY := r.min.y - (r.max.y - r.min.y) * (1/10 : ℚ)
  let maxY := r.max.y + (r.max.y - r.min.y) * (1/10 : ℚ)
  let minX := r.min.x - (r.max.x - r.min.x) * (1/10 : ℚ)
  let maxX := r.max.x + (r.max.x - r.min.x) * (1/10 : ℚ)
  ⟨⟨if minX < minLongitude then minLongitude else minX, if minY < minLatitude then minLatitude else minY⟩,
    ⟨if maxX > maxLongitude then maxLongitude else maxX, if maxY > maxLatitude then maxLatitude else maxY⟩⟩

/-- Closed form of the sequential expansion the code performs (the amended
claim C1): the min edges move outward by 10% of the original extent, but the
max edges — computed from the already-moved min edges — move outward by 11%
of the original extent; then each edge is clamped. -/
def mvtExpandClampAmended (r : Rect) : Rect :=
  let minY := r.min.y - (r.max.y - r.min.y) * (1/10 : ℚ)
  let maxY := r.max.y + 11 * (r.max.y - r.min.y) / 100
  let minX := r.min.x - (r.max.x - r.min.x) * (1/10 : ℚ)
  let maxX := r.max.x + 11 * (r.max.x - r.min.x) / 100
  ⟨⟨if minX < minLongitude then minLongitude else minX, if minY < minLatitude then minLatitude else minY⟩,
    ⟨if maxX > maxLongitude then maxLongitude else maxX, if maxY > maxLatitude then maxLatitude else maxY⟩⟩

theorem mvtExpandClamp_eq_amended (r : Rect) : mvtExpandClamp r = mvtExpandClampAmended r := by
  have hy : r.max.y + (r.max.y - (r.min.y - (r.max.y - r.min.y) * (1/10 : ℚ))) * (1/10 : ℚ) =
      r.max.y + 11 * (r.max.y - r.min.y) / 100 := by ring
  have hx : r.max.x + (r.max.x - (r.min.x - (r.max.x - r.min.x) * (1/10 : ℚ))) * (1/10 : ℚ) =
      r.max.x + 11 * (r.max.x - r.min.x) / 100 := by ring
  simp only [mvtExpandClamp, mvtExpandClampAmended]
  rw [hy, hx]

theorem parseRectArea_mvt_eval (ext : Ext) (sx sy sz : String) (rest : List String)
    (x y z : ℤ)
    (hx : parseInt? sx = some x) (hy : parseInt? sy = some y) (hz : parseInt? sz = some z)
    (hx0 : 0 ≤ x) (hy0 : 0 ≤ y) (hz0 : 0 ≤ z) (hz23 : z ≤ 23) :
    parseRectArea ext "mvt" (sx :: sy :: sz :: rest) =
      ⟨rest, some (.rect (mvtExpandClamp (ext.tileBounds x y z))), x, y, z, none⟩ := by
  unfold parseRectArea
  rw [if_neg (by decide : ¬("mvt" : String) = "bounds"),
    if_neg (by decide : ¬("mvt" : String) = "hash"),
    if_neg (by decide : ¬("mvt" : String) = "quadkey"),
    if_pos (Or.inr rfl : ("mvt" : String) = "tile" ∨ ("mvt" : String) = "mvt")]
  simp only [reqTok_cons _ (parseInt?_ne_empty hx),
    reqTok_cons _ (parseInt?_ne_empty hy),
    reqTok_cons _ (parseInt?_ne_empty hz),
    hx, hy, hz]
  rw [if_neg (not_lt.2 hx0), if_neg (not_lt.2 hy0),
    if_neg (by rintro (hq | hq) <;> omega :
      ¬(z < 0 ∨ z > 23))]
  rw [if_pos trivial]

/-- C1 counterexample: at the concrete mvt tile input 1,1,2 (with the tile
rectangle the external decoder returns for it), resolution succeeds but the
resolved rectangle differs from the symmetric 10%-expansion-and-clamp of the
tile rectangle that the claim describes — the code moves the max edges by 10%
of the already-expanded extent. -/
theorem mvt_expansion_not_symmetric :
    (parseRectArea extEx "mvt" ["1", "1", "2"]).err = none ∧
    (parseRectArea extEx "mvt" ["1", "1", "2"]).grect ≠
      some (.rect (mvtExpandClampSpec (extEx.tileBounds 1 1 2))) := by
  have he := parseRectArea_mvt_eval extEx "1" "1" "2" [] 1 1 2 (by decide) (by decide)
    (by decide) (by decide) (by decide) (by decide) (by decide)
  rw [he]
  refine ⟨rfl, ?_⟩
  have h1 : mvtExpandClamp (extEx.tileBounds 1 1 2) =
      ⟨⟨-99, -33/5⟩, ⟨99/10, 3663/50⟩⟩ := by
    simp only [extEx, mvtExpandClamp, minLatitude, maxLatitude, minLongitude, maxLongitude]
    norm_num
  have h2 : mvtExpandClampSpec (extEx.tileBounds 1 1 2) =
      ⟨⟨-99, -33/5⟩, ⟨9, 363/5⟩⟩ := by
    simp only [extEx, mvtExpandClampSpec, minLatitude, maxLatitude, minLongitude, maxLongitude]
    norm_num
  rw [h1, h2]
  intro hc
  rw [Option.some.injEq, GeomObject.rect.injEq, Rect.mk.injEq, Point.mk.injEq,
    Point.mk.injEq] at hc
  have := hc.2.1
  norm_num at this

/-- C1 as amended: for every valid mvt tile input x,y,z, the resolved
rectangle equals the tile rectangle expanded sequentially — each min edge
moves outward by 10% of the extent, each max edge by 11% of the extent (10%
of the already-expanded extent) — and then clamped to the valid latitude and
longitude ranges. -/
theorem mvt_rect_sequential_expand (ext : Ext) (sx sy sz : String) (rest : List String)
    (x y z : ℤ)
    (hx : parseInt? sx = some x) (hy : parseInt? sy = some y) (hz : parseInt? sz = some z)
    (hx0 : 0 ≤ x) (hy0 : 0 ≤ y) (hz0 : 0 ≤ z) (hz23 : z ≤ 23) :
    parseRectArea ext "mvt" (sx :: sy :: sz :: rest) =
      ⟨rest, some (.rect (mvtExpandClampAmended (ext.tileBounds x y z))), x, y, z, none⟩ := by
  rw [parseRectArea_mvt_eval ext sx sy sz rest x y z hx hy hz hx0 hy0 hz0 hz23,
    mvtExpandClamp_eq_amended]

/-- Witness for C1 (amended) at the concrete tile 1,1,2. -/
theorem mvt_rect_sequential_expand_witness :
    parseRectArea extEx "mvt" ["1", "1", "2"] =
      ⟨[], some (.rect (mvtExpandClampAmended (extEx.tileBounds 1 1 2))), 1, 1, 2, none⟩ := by
  exact mvt_rect_sequential_expand extEx "1" "1" "2" [] 1 1 2 (by decide) (by decide)
    (by decide) (by decide) (by decide) (by decide) (by decide)

end Tile38
